import Mathlib

/-!
Verification of the reinforcement-drawing module
(`ReinforcementDrawing/ReinforcementDrawingfunc.py`).

The Python module projects 3D rebar geometry onto a view plane and emits
deduplicated SVG elements.  Coordinates (Python floats) are modelled as
exact rationals `Q` (a kernel-computable normalized-fraction type), Python's
`round` (banker's rounding) as `pyround`, and the `xml.etree.ElementTree`
element trees as the nested inductive `XML`.  External collaborators (the
geometry kernel, `SVGfunc`, `config`) are modelled where noted in the doc
comments.
-/

/-- Euclid's algorithm on naturals with an explicit structural fuel, so that
it reduces inside the kernel; `fuel ≥ m + 1` always suffices because the
first argument strictly decreases. -/
def gcdFuel : ℕ → ℕ → ℕ → ℕ
  | 0, _, n => n
  | _ + 1, 0, n => n
  | fuel + 1, m + 1, n => gcdFuel fuel (n % (m + 1)) (m + 1)

/-- Greatest common divisor, kernel-computable. -/
def natGcd (m n : ℕ) : ℕ := gcdFuel (m + 1) m n

/-- An exact rational number: numerator and positive denominator, kept in
lowest terms by the smart constructor `mkQ`.  This models Python float
values exactly on the (dyadic/rational) inputs used in this development,
while remaining fully computable by kernel reduction. -/
structure Q where
  num : ℤ
  den : ℤ
deriving DecidableEq

/-- Smart constructor: normalizes the sign into the numerator and divides
out the gcd; a zero denominator (which would raise `ZeroDivisionError` in
Python) is mapped to `0`. -/
def mkQ (n d : ℤ) : Q :=
  if d = 0 then ⟨0, 1⟩
  else
    let n' := if d < 0 then -n else n
    let d' := (d.natAbs : ℤ)
    let g := (natGcd n'.natAbs d.natAbs : ℤ)
    ⟨n'.ediv g, d'.ediv g⟩

instance : OfNat Q n := ⟨⟨(n : ℤ), 1⟩⟩

instance : Neg Q := ⟨fun a => ⟨-a.num, a.den⟩⟩

instance : Add Q := ⟨fun a b => mkQ (a.num * b.den + b.num * a.den) (a.den * b.den)⟩

instance : Sub Q := ⟨fun a b => mkQ (a.num * b.den - b.num * a.den) (a.den * b.den)⟩

instance : Mul Q := ⟨fun a b => mkQ (a.num * b.num) (a.den * b.den)⟩

instance : Div Q := ⟨fun a b => mkQ (a.num * b.den) (a.den * b.num)⟩

instance : LT Q := ⟨fun a b => a.num * b.den < b.num * a.den⟩

instance : LE Q := ⟨fun a b => a.num * b.den ≤ b.num * a.den⟩

instance (a b : Q) : Decidable (a < b) := inferInstanceAs (Decidable (_ < _))

instance (a b : Q) : Decidable (a ≤ b) := inferInstanceAs (Decidable (_ ≤ _))

/-- Absolute value (`abs` on a Python float). -/
def Q.qabs (a : Q) : Q := ⟨|a.num|, a.den⟩

/-- Floor of a rational; the denominator is positive by construction, so
Euclidean division of the numerator gives the floor. -/
def Q.floor (a : Q) : ℤ := a.num.ediv a.den

/-- Rendering of a value into the text of an SVG attribute, modelling
Python's `str` on the number. -/
def Q.str (a : Q) : String :=
  if a.den = 1 then toString a.num else toString a.num ++ "/" ++ toString a.den

/-- Python's built-in `round` on a float: round half to even (banker's
rounding). -/
def pyround (q : Q) : ℤ :=
  let f := q.floor
  let r := q - (⟨f, 1⟩ : Q)
  if r < mkQ 1 2 then f
  else if mkQ 1 2 < r then f + 1
  else if f % 2 = 0 then f else f + 1

/-- Python's `str` of a bool, as produced when a `bool` value is interpolated
into a format string (`"True"` / `"False"`). -/
def pyBoolStr (b : Bool) : String := if b then "True" else "False"

/-- A 3D vector (`FreeCAD.Vector`) with exact rational coordinates. -/
structure Vec3 where
  x : Q
  y : Q
  z : Q
deriving DecidableEq

/-- Dot product of two vectors. -/
def Vec3.dot (a b : Vec3) : Q := a.x * b.x + a.y * b.y + a.z * b.z

/-- Cross product of two vectors. -/
def Vec3.cross (a b : Vec3) : Vec3 :=
  ⟨a.y * b.z - a.z * b.y, a.z * b.x - a.x * b.z, a.x * b.y - a.y * b.x⟩

/-- A view plane (`WorkingPlane.plane()` with its `axis`, `u`, `v` fields
set), the 2D projection basis used for the drawing. -/
structure ViewPlane where
  axis : Vec3
  u : Vec3
  v : Vec3
deriving DecidableEq

/-- `getViewPlane(view)`: returns the view plane corresponding to `view`,
where `view` can be Front, Rear, Left, Right, Top or Bottom; for any other
name the Python function prints an error and returns `None` (modelled as
`none`). -/
def getViewPlane (view : String) : Option ViewPlane :=
  if view = "Front" then
    some ⟨⟨0, -1, 0⟩, ⟨1, 0, 0⟩, ⟨0, 0, -1⟩⟩
  else if view = "Rear" then
    some ⟨⟨0, 1, 0⟩, ⟨-1, 0, 0⟩, ⟨0, 0, -1⟩⟩
  else if view = "Left" then
    some ⟨⟨-1, 0, 0⟩, ⟨0, -1, 0⟩, ⟨0, 0, -1⟩⟩
  else if view = "Right" then
    some ⟨⟨1, 0, 0⟩, ⟨0, 1, 0⟩, ⟨0, 0, -1⟩⟩
  else if view = "Top" then
    some ⟨⟨0, 0, 1⟩, ⟨1, 0, 0⟩, ⟨0, -1, 0⟩⟩
  else if view = "Bottom" then
    some ⟨⟨0, 0, -1⟩, ⟨1, 0, 0⟩, ⟨0, 1, 0⟩⟩
  else
    none

/-- `getProjectionToSVGPlane(vec, plane)`: projection of a 3D point onto the
drawing plane.  The Python code sets `lx` to the length of
`DraftVecUtils.project(vec, plane.u)` (which is `(vec·u / u·u) • u`),
negated when the angle between that projection and `u` exceeds the 0.1 rad
tolerance.  The projection is collinear with `u`, so that angle is `0` or
`π`, and the tolerance test holds exactly when `vec·u < 0`; for the unit
basis vectors produced by `getViewPlane` the projection length is `|vec·u|`.
`ly` is computed symmetrically against `plane.v`; the third coordinate is
`0`. -/
def getProjectionToSVGPlane (vec : Vec3) (plane : ViewPlane) : Vec3 :=
  let lx := (Vec3.dot vec plane.u).qabs
  let lx := if Vec3.dot vec plane.u < 0 then -lx else lx
  let ly := (Vec3.dot vec plane.v).qabs
  let ly := if Vec3.dot vec plane.v < 0 then -ly else ly
  ⟨lx, ly, 0⟩

/-- An `xml.etree.ElementTree` element: a tag, an attribute list and a list
of child elements. -/
inductive XML where
  | elem (tag : String) (attrs : List (String × String)) (children : List XML)

/-- Tag of an element. -/
def XML.tag : XML → String
  | .elem t _ _ => t

/-- Attribute list of an element. -/
def XML.attrs : XML → List (String × String)
  | .elem _ a _ => a

/-- Children of an element. -/
def XML.children : XML → List XML
  | .elem _ _ c => c

mutual

/-- Decidable equality of elements (trees compared node by node). -/
def decEqXML : (a b : XML) → Decidable (a = b)
  | .elem t a cs, .elem t' a' cs' =>
      if ht : t = t' then
        if ha : a = a' then
          match decEqXMLList cs cs' with
          | isTrue hc => isTrue (by rw [ht, ha, hc])
          | isFalse hc => isFalse (by intro h; injection h; exact hc ‹_›)
        else isFalse (by intro h; injection h; exact ha ‹_›)
      else isFalse (by intro h; injection h; exact ht ‹_›)

/-- Decidable equality of lists of elements. -/
def decEqXMLList : (a b : List XML) → Decidable (a = b)
  | [], [] => isTrue rfl
  | [], _ :: _ => isFalse (by simp)
  | _ :: _, [] => isFalse (by simp)
  | c :: cs, d :: ds =>
      match decEqXML c d with
      | isTrue h1 =>
          match decEqXMLList cs ds with
          | isTrue h2 => isTrue (by rw [h1, h2])
          | isFalse h2 => isFalse (by intro h; injection h; exact h2 ‹_›)
      | isFalse h1 => isFalse (by intro h; injection h; exact h1 ‹_›)

end

instance : DecidableEq XML := decEqXML

/-- Attribute lookup on an element (`element.get(key)`). -/
def XML.getAttr (x : XML) (key : String) : Option String :=
  x.attrs.lookup key

/-- `element.set(key, value)`: replace the value of an existing attribute,
or add the attribute at the end of the attribute list. -/
def setAssoc (key value : String) : List (String × String) → List (String × String)
  | [] => [(key, value)]
  | (k, v) :: rest =>
      if k = key then (k, value) :: rest else (k, v) :: setAssoc key value rest

/-- `element.set(key, value)` on an element. -/
def XML.setAttr (x : XML) (key value : String) : XML :=
  .elem x.tag (setAssoc key value x.attrs) x.children

/-- `element.append(child)`. -/
def XML.append (x : XML) (child : XML) : XML :=
  .elem x.tag x.attrs (x.children ++ [child])

mutual

/-- `svg.find(".//" + pattern)`-style search, as a boolean: does any strict
descendant of the element satisfy the predicate `p`?  (An ElementTree
`.//tag` path matches descendants of the context node, not the node
itself.) -/
def XML.findDesc (p : XML → Bool) : XML → Bool
  | .elem _ _ children => findDescList p children

/-- Search of a list of elements: does any element of the list, or any of
its descendants, satisfy `p`? -/
def findDescList (p : XML → Bool) : List XML → Bool
  | [] => false
  | c :: cs => (p c || XML.findDesc p c) || findDescList p cs

end

/-- Matcher for `path[@d="..."]`: a `path` element whose `d` attribute
equals the given string. -/
def isPathWithD (d : String) (x : XML) : Bool :=
  x.tag == "path" && x.getAttr "d" == some d

/-- `svg.find(".//path[@d=...]")` as a boolean. -/
def findPathD (d : String) (svg : XML) : Bool :=
  svg.findDesc (isPathWithD d)

/-- Matcher for a `circle` element at the given integer centre. -/
def isCircleAt (cx cy : ℤ) (x : XML) : Bool :=
  x.tag == "circle" && x.getAttr "cx" == some (toString cx)
    && x.getAttr "cy" == some (toString cy)

/-- Search for a point marker (`circle`) at the given centre among the
strict descendants of an element. -/
def findCircle (cx cy : ℤ) (svg : XML) : Bool :=
  svg.findDesc (isCircleAt cx cy)

example : pyround (mkQ 1 2) = 0 := by decide
example : pyround (mkQ 3 2) = 2 := by decide
example : pyround (mkQ 5 2) = 2 := by decide
example : pyround (mkQ (-1) 2) = 0 := by decide
example : pyround (mkQ 7 5) = 1 := by decide
example : pyround (mkQ (-7) 5) = -1 := by decide
example : getViewPlane "Oblique" = none := by decide
example :
    getProjectionToSVGPlane ⟨3, 4, 5⟩ ⟨⟨0, 0, 1⟩, ⟨1, 0, 0⟩, ⟨0, -1, 0⟩⟩ =
      ⟨3, -4, 0⟩ := by decide

/-- Modelled from the spec: `SVGfunc.getLineSVG` (the repository's SVG
primitive builders live in `SVGfunc.py`, which is not among the sources
here; the spec treats them as given constructors/predicates).  The `d`
string of the line path for two projected points, with integer-rounded
coordinates as documented for the output contract. -/
def lineD (p1 p2 : Vec3) : String :=
  "M" ++ toString (pyround p1.x) ++ " " ++ toString (pyround p1.y) ++
    " L" ++ toString (pyround p2.x) ++ " " ++ toString (pyround p2.y)

/-- Modelled from the spec: `SVGfunc.getLineSVG(p1, p2)` returns the SVG
line-segment path element for the two projected points. -/
def getLineSVG (p1 p2 : Vec3) : XML :=
  .elem "path" [("style", "stroke:#000000;fill:none"), ("d", lineD p1 p2)] []

/-- Modelled from the spec: `SVGfunc.isLineInSVG(p1, p2, svg)` tests whether
an equivalent line (in either endpoint order) already exists in the svg
element tree. -/
def isLineInSVG (p1 p2 : Vec3) (svg : XML) : Bool :=
  findPathD (lineD p1 p2) svg || findPathD (lineD p2 p1) svg

/-- Modelled from the spec: `SVGfunc.getPointSVG(p, radius)` returns the
point-marker (`circle`) element at the projected point with the given
radius. -/
def getPointSVG (p : Vec3) (radius : Q) : XML :=
  .elem "circle"
    [("cx", toString (pyround p.x)), ("cy", toString (pyround p.y)),
     ("r", radius.str), ("fill", "#000000")] []

/-- Modelled from the spec: `SVGfunc.isPointInSVG(p, svg)` tests whether an
equivalent point marker already exists in the svg element tree. -/
def isPointInSVG (p : Vec3) (svg : XML) : Bool :=
  findCircle (pyround p.x) (pyround p.y) svg

/-- Modelled from the spec: `SVGfunc.getSVGPathElement(d, marker, style)`
returns a `path` element with the given attributes. -/
def getSVGPathElement (d markerStart style : String) : XML :=
  .elem "path" [("d", d), ("marker-start", markerStart), ("style", style)] []

/-- Modelled from the spec: `SVGfunc.getSVGTextElement` returns a `text`
element; the text content is modelled as a pseudo-attribute.  The two call
sites in the drawing module pass either a text anchor (`"middle"`) or a
dominant baseline (`"central"`); an absent argument is modelled as `""`. -/
def getSVGTextElement (contents : String) (x y : Q)
    (fontFamily fontSize textAnchor dominantBaseline : String) : XML :=
  .elem "text"
    [("x", x.str), ("y", y.str), ("font-family", fontFamily),
     ("font-size", fontSize), ("text-anchor", textAnchor),
     ("dominant-baseline", dominantBaseline), ("textContent", contents)] []

/-- Modelled from the spec: `SVGfunc.getSVGRootElement()` returns the root
`svg` document element. -/
def getSVGRootElement : XML :=
  .elem "svg" [("version", "1.1"), ("xmlns", "http://www.w3.org/2000/svg")] []

/-- Modelled from the spec: `SVGfunc.getArrowMarkerElement(id, orientation)`
returns an arrow `marker` element for dimension lines. -/
def getArrowMarkerElement (markerId orientation : String) : XML :=
  .elem "marker" [("id", markerId), ("orient", orientation)] []

/-- Sign test `DraftVecUtils.angle(u, v, normal) < 0`.  `DraftVecUtils.angle`
returns `±acos(u·v / (|u||v|))`, the sign taken negative exactly when
`normal · (u × v) < 0` (when that dot product is negative the vectors are
not parallel, so the acos part is strictly positive and the result is
strictly negative; otherwise the result is ≥ 0).  Hence the comparison
with 0 reduces to the stated rational condition. -/
def angleIsNegative (u v normal : Vec3) : Bool :=
  decide (Vec3.dot normal (Vec3.cross u v) < 0)

/-- The `d` string of the circular-arc path used by `getRoundCornerSVG` and
`isRoundCornerInSVG`, with the sweep flag passed as the string that Python's
string formatting produces for it. -/
def arcD (x1 y1 radius : ℤ) (flagSweep : String) (x2 y2 : ℤ) : String :=
  "M" ++ toString x1 ++ " " ++ toString y1 ++ " A" ++ toString radius ++ " " ++
    toString radius ++ " 0 0 " ++ flagSweep ++ " " ++ toString x2 ++ " " ++
    toString y2

/-- The geometry type of an edge (`DraftGeomUtils.geomType`): a straight
`Line`, a `Circle` arc (fillet), or any other geometry (skipped by the
builders' if/elif chains). -/
inductive GeomType where
  | line
  | circle
  | other
deriving DecidableEq

/-- An edge of a (filleted) rebar wire, with the data the drawing module
reads from the CAD kernel: its geometry type, its two vertex points
(`Vertexes[0].Point`, `Vertexes[1].Point`), the tangent at the first
parameter, and the tangent sampled slightly along the edge (at
`FirstParameter + (LastParameter - FirstParameter) / 10`). -/
structure Edge where
  geomType : GeomType
  v0 : Vec3
  v1 : Vec3
  tangentStart : Vec3
  tangentNear : Vec3
deriving DecidableEq

/-- The sweep flag computed by `getRoundCornerSVG` and `isRoundCornerInSVG`:
the Python int `int(DraftVecUtils.angle(t1, t2, view_plane.axis) < 0)`,
where `t1` is the tangent at the edge's first parameter and `t2` the tangent
sampled slightly along the edge. -/
def sweepFlag (edge : Edge) (viewPlane : ViewPlane) : ℕ :=
  if angleIsNegative edge.tangentStart edge.tangentNear viewPlane.axis then 1 else 0

/-- `getRoundCornerSVG(edge, radius, view_plane)`: the svg path element of a
round-corner edge with the given radius.  The sweep flag is formatted from
the Python int as `"0"`/`"1"`. -/
def getRoundCornerSVG (edge : Edge) (radius : Q) (viewPlane : ViewPlane) : XML :=
  let p1 := getProjectionToSVGPlane edge.v0 viewPlane
  let p2 := getProjectionToSVGPlane edge.v1 viewPlane
  .elem "path"
    [("style", "stroke:#000000;fill:none"),
     ("d", arcD (pyround p1.x) (pyround p1.y) (pyround radius)
        (toString (sweepFlag edge viewPlane)) (pyround p2.x) (pyround p2.y))] []

/-- `isRoundCornerInSVG(edge, radius, view_plane, svg)`: returns `true` if
the svg corresponding to the round-corner edge is present in the svg
element.  The first query uses the endpoints in order with the sweep flag
formatted from the Python int (`"0"`/`"1"`); the second query swaps the
endpoints and formats `not flag_sweep` — a Python *bool* — so the sweep
field of that query reads `"True"` or `"False"`. -/
def isRoundCornerInSVG (edge : Edge) (radius : Q) (viewPlane : ViewPlane)
    (svg : XML) : Bool :=
  let p1 := getProjectionToSVGPlane edge.v0 viewPlane
  let p2 := getProjectionToSVGPlane edge.v1 viewPlane
  if findPathD
      (arcD (pyround p1.x) (pyround p1.y) (pyround radius)
        (toString (sweepFlag edge viewPlane)) (pyround p2.x) (pyround p2.y))
      svg then
    true
  else if findPathD
      (arcD (pyround p2.x) (pyround p2.y) (pyround radius)
        (pyBoolStr (sweepFlag edge viewPlane == 0)) (pyround p1.x)
        (pyround p1.y)) svg then
    true
  else
    false

/-- A rebar object, with the attributes the drawing module reads.  Data that
the module obtains through external geometry services is modelled as
fields: `spanAxis` is the result of `getRebarsSpanAxis` (which reads the
base shape's normal, the base placement rotation, or the explicit
`Direction` — all external); `edges` is
`Part.__sortEdges__(DraftGeomUtils.filletWire(rebar.Base.Shape.Wires[0],
rounding * diameter).Edges)`; `baseV0`/`baseV1` are the first two vertex
points of `rebar.Base.Shape.Wires[0]`; the `placement*` fields hold, per
entry of `rebar.PlacementList`, the corresponding data of the placed copy of
the base wire; `draftSvg` is the parsed result of `Draft.getSVG` for
helical/custom shapes; `diameterStr` is Python's `str(rebar.Diameter)` as
interpolated into the dimension label. -/
structure Rebar where
  name : String
  rebarShape : String
  diameter : Q
  diameterStr : String
  amount : ℕ
  rounding : Q
  spanAxis : Vec3
  edges : List Edge
  baseV0 : Vec3
  baseV1 : Vec3
  placementWireVertices : List (List Vec3)
  placementEnds : List (Vec3 × Vec3)
  placementEdges : List (List Edge)
  draftSvg : XML

/-- `getRebarsSpanAxis(rebar)`: span axis of the rebar.  The Python function
computes it from external services (Draft wire normal, placement rotation,
optional `Direction`); the result is modelled by the `spanAxis` field. -/
def getRebarsSpanAxis (rebar : Rebar) : Vec3 := rebar.spanAxis

/-- `round(u.cross(v).Length) == 0`: with Python's half-to-even rounding,
for the nonnegative length `L = |u × v|` this holds iff `L ≤ 1/2`, i.e. iff
`(u × v)·(u × v) ≤ 1/4`. -/
def crossLengthRoundsToZero (u v : Vec3) : Bool :=
  let c := Vec3.cross u v
  decide (Vec3.dot c c ≤ mkQ 1 4)

/-- Python's `min` of two floats (returns the first argument on ties). -/
def qmin (a b : Q) : Q := if b < a then b else a

/-- Python's `max` of two floats (returns the first argument on ties). -/
def qmax (a b : Q) : Q := if a < b then b else a

/-- Result dictionary of the stirrup and U-shape builders: the svg fragment
and the visibility flag. -/
structure SVGData where
  svg : XML
  visibility : Bool

/-- `getStirrupSVGPoints(stirrup_wire, stirrup_alignment, view_plane)`:
points of the line representation of a stirrup in the view plane, from the
min/max of the projected wire vertices; alignment `"V"` gives a vertical
line at the mean x, otherwise a horizontal line at the mean y.  (Python
indexes `Vertexes[0]`, raising `IndexError` on an empty vertex list; the
empty case is modelled by the origin pair and is unreachable for real
wires.) -/
def getStirrupSVGPoints (vertices : List Vec3) (alignment : String)
    (viewPlane : ViewPlane) : Vec3 × Vec3 :=
  match vertices with
  | [] => (⟨0, 0, 0⟩, ⟨0, 0, 0⟩)
  | v :: vs =>
      let first := getProjectionToSVGPlane v viewPlane
      let rest := vs.map (getProjectionToSVGPlane · viewPlane)
      let minX := rest.foldl (fun m p => qmin m p.x) first.x
      let minY := rest.foldl (fun m p => qmin m p.y) first.y
      let maxX := rest.foldl (fun m p => qmax m p.x) first.x
      let maxY := rest.foldl (fun m p => qmax m p.y) first.y
      if alignment = "V" then
        let xCord := (minX + maxX) / 2
        (⟨xCord, minY, 0⟩, ⟨xCord, maxY, 0⟩)
      else
        let yCord := (minY + maxY) / 2
        (⟨minX, yCord, 0⟩, ⟨maxX, yCord, 0⟩)

/-- One iteration of the edge loop in the face-on branch of
`getStirrupSVGData`: a `Line` edge is emitted as a line segment, a `Circle`
edge as a round-corner arc; the edge element is appended when the rebar is
already visible or its geometry is not yet in the accumulated svg, and then
the rebar is marked visible.  The state is the pair (children appended so
far, `is_rebar_visible`). -/
def stirrupFaceOnStep (radius : Q) (viewPlane : ViewPlane) (rebarsSvg : XML)
    (s : List XML × Bool) (edge : Edge) : List XML × Bool :=
  match edge.geomType with
  | .line =>
      let p1 := getProjectionToSVGPlane edge.v0 viewPlane
      let p2 := getProjectionToSVGPlane edge.v1 viewPlane
      let edgeSvg := getLineSVG p1 p2
      if s.2 || !(isLineInSVG p1 p2 rebarsSvg) then (s.1 ++ [edgeSvg], true)
      else s
  | .circle =>
      let edgeSvg := getRoundCornerSVG edge radius viewPlane
      if s.2 || !(isRoundCornerInSVG edge radius viewPlane rebarsSvg) then
        (s.1 ++ [edgeSvg], true)
      else s
  | .other => s

/-- One iteration of the placement loop in the oblique branch of
`getStirrupSVGData`: each placed wire is drawn as its representative line;
a novel line makes the rebar visible, and once visible every later
placement line is appended. -/
def stirrupPlacementStep (alignment : String) (viewPlane : ViewPlane)
    (rebarsSvg : XML) (s : List XML × Bool) (wireVertices : List Vec3) :
    List XML × Bool :=
  let pts := getStirrupSVGPoints wireVertices alignment viewPlane
  let rebarSvg := getLineSVG pts.1 pts.2
  let vis := s.2 || !(isLineInSVG pts.1 pts.2 rebarsSvg)
  (if vis then s.1 ++ [rebarSvg] else s.1, vis)

/-- `getStirrupSVGData(rebar, view_plane, rebars_svg)`: stirrup svg data.
If the drawing-plane normal is parallel to the span axis (rounded cross
length zero), the filleted profile is drawn edge by edge; otherwise one
representative line per placement is drawn, aligned `"V"` when the span
axis is parallel to the view plane's `u`. -/
def getStirrupSVGData (rebar : Rebar) (viewPlane : ViewPlane)
    (rebarsSvg : XML) : SVGData :=
  let radius := rebar.rounding * rebar.diameter
  if crossLengthRoundsToZero viewPlane.axis (getRebarsSpanAxis rebar) then
    let res := rebar.edges.foldl (stirrupFaceOnStep radius viewPlane rebarsSvg)
      ([], false)
    ⟨.elem "g" [("id", rebar.name)] res.1, res.2⟩
  else
    let alignment :=
      if crossLengthRoundsToZero (getRebarsSpanAxis rebar) viewPlane.u then "V"
      else "H"
    let res := rebar.placementWireVertices.foldl
      (stirrupPlacementStep alignment viewPlane rebarsSvg) ([], false)
    ⟨.elem "g" [("id", rebar.name)] res.1, res.2⟩

/-- One iteration of the edge loop in the face-on branch of
`getUShapeRebarSVGData`.  A `Line` edge whose projected endpoints round to
the same integer coordinate becomes a point marker that is never tested
against the accumulated svg and never changes the visibility; a normal
`Line` edge becomes a line segment whose novelty makes the rebar visible; a
`Circle` edge whose projected endpoints share a rounded x or y becomes a
line segment, otherwise a round-corner arc.  In each case the element is
appended exactly when the rebar is visible after the edge's own test. -/
def uShapeFaceOnStep (factor diameter radius : Q) (viewPlane : ViewPlane)
    (rebarsSvg : XML) (s : List XML × Bool) (edge : Edge) : List XML × Bool :=
  match edge.geomType with
  | .line =>
      let p1 := getProjectionToSVGPlane edge.v0 viewPlane
      let p2 := getProjectionToSVGPlane edge.v1 viewPlane
      if pyround p1.x == pyround p2.x && pyround p1.y == pyround p2.y then
        let edgeSvg := getPointSVG p1 (factor * diameter)
        (if s.2 then s.1 ++ [edgeSvg] else s.1, s.2)
      else
        let edgeSvg := getLineSVG p1 p2
        let vis := s.2 || !(isLineInSVG p1 p2 rebarsSvg)
        (if vis then s.1 ++ [edgeSvg] else s.1, vis)
  | .circle =>
      let p1 := getProjectionToSVGPlane edge.v0 viewPlane
      let p2 := getProjectionToSVGPlane edge.v1 viewPlane
      if pyround p1.x == pyround p2.x || pyround p1.y == pyround p2.y then
        let edgeSvg := getLineSVG p1 p2
        let vis := s.2 || !(isLineInSVG p1 p2 rebarsSvg)
        (if vis then s.1 ++ [edgeSvg] else s.1, vis)
      else
        let edgeSvg := getRoundCornerSVG edge radius viewPlane
        let vis := s.2 || !(isRoundCornerInSVG edge radius viewPlane rebarsSvg)
        (if vis then s.1 ++ [edgeSvg] else s.1, vis)
  | .other => s

/-- One iteration of the inner edge loop in the placement branch of
`getUShapeRebarSVGData`.  It differs from the face-on loop in the `Line`
case: after building the edge element (point marker or line segment), the
append condition re-tests `is_rebar_visible or not isLineInSVG(p1, p2,
rebars_svg)` — also for the degenerate point case — and marks the rebar
visible on append. -/
def uShapePlacementEdgeStep (factor diameter radius : Q)
    (viewPlane : ViewPlane) (rebarsSvg : XML) (s : List XML × Bool)
    (edge : Edge) : List XML × Bool :=
  match edge.geomType with
  | .line =>
      let p1 := getProjectionToSVGPlane edge.v0 viewPlane
      let p2 := getProjectionToSVGPlane edge.v1 viewPlane
      if pyround p1.x == pyround p2.x && pyround p1.y == pyround p2.y then
        let edgeSvg := getPointSVG p1 (factor * diameter)
        if s.2 || !(isLineInSVG p1 p2 rebarsSvg) then (s.1 ++ [edgeSvg], true)
        else s
      else
        let edgeSvg := getLineSVG p1 p2
        let vis := s.2 || !(isLineInSVG p1 p2 rebarsSvg)
        (if vis then s.1 ++ [edgeSvg] else s.1, vis)
  | .circle =>
      let p1 := getProjectionToSVGPlane edge.v0 viewPlane
      let p2 := getProjectionToSVGPlane edge.v1 viewPlane
      if pyround p1.x == pyround p2.x || pyround p1.y == pyround p2.y then
        let edgeSvg := getLineSVG p1 p2
        let vis := s.2 || !(isLineInSVG p1 p2 rebarsSvg)
        (if vis then s.1 ++ [edgeSvg] else s.1, vis)
      else
        let edgeSvg := getRoundCornerSVG edge radius viewPlane
        let vis := s.2 || !(isRoundCornerInSVG edge radius viewPlane rebarsSvg)
        (if vis then s.1 ++ [edgeSvg] else s.1, vis)
  | .other => s

/-- `getUShapeRebarSVGData(rebar, view_plane, rebars_svg)`: svg data of a
U-shape (also bent and L-shape) rebar.  `factor` is the module constant
`SVG_POINT_DIA_FACTOR` imported from the repository's `config.py` (not in
the sources here), passed explicitly. -/
def getUShapeRebarSVGData (factor : Q) (rebar : Rebar)
    (viewPlane : ViewPlane) (rebarsSvg : XML) : SVGData :=
  let radius := rebar.rounding * rebar.diameter
  if crossLengthRoundsToZero viewPlane.axis (getRebarsSpanAxis rebar) then
    let res := rebar.edges.foldl
      (uShapeFaceOnStep factor rebar.diameter radius viewPlane rebarsSvg)
      ([], false)
    ⟨.elem "g" [("id", rebar.name)] res.1, res.2⟩
  else
    let res := rebar.placementEdges.foldl
      (fun s placedEdges => placedEdges.foldl
        (uShapePlacementEdgeStep factor rebar.diameter radius viewPlane
          rebarsSvg) s)
      ([], false)
    ⟨.elem "g" [("id", rebar.name)] res.1, res.2⟩

/-- Result of `getLineDimensionsData`: the dimension group (leader line and
label) and whether the dimension line is horizontal. -/
structure DimensionData where
  svg : XML
  dimension_line_horizontal : Bool

/-- `getLineDimensionsData(p1, p2, dimension_text, h_dim_x, h_dim_y,
v_dim_x, v_dim_y)`: when the segment's vertical extent is smaller than its
horizontal extent, a vertical leader at `v_dim_x` with the label at
`(v_dim_x, v_dim_y)` is produced (`dimension_line_horizontal = False`);
otherwise a horizontal leader at `h_dim_y` with the label at
`(h_dim_x, h_dim_y)` (`dimension_line_horizontal = True`).  (For an exactly
degenerate segment the Python slope expression raises
`ZeroDivisionError`; the model's division by zero yields 0 there.) -/
def getLineDimensionsData (p1 p2 : Vec3) (dimensionText : String)
    (hDimX hDimY vDimX vDimY : Q) : DimensionData :=
  if (p2.y - p1.y).qabs < (p2.x - p1.x).qabs then
    let xCord := vDimX
    let yCord := (xCord - p1.x) * (p2.y - p1.y) / (p2.x - p1.x) + p1.y
    let dimensionLine := getSVGPathElement
      ("M" ++ xCord.str ++ " " ++ yCord.str ++ " V" ++ vDimY.str)
      "url(#start_arrow)" "stroke:#000000"
    let dimensionLabel := getSVGTextElement dimensionText vDimX vDimY
      "DejaVu Sans" "10px" "middle" ""
    ⟨.elem "g" [] [dimensionLine, dimensionLabel], false⟩
  else
    let yCord := hDimY
    let xCord := (yCord - p1.y) * (p2.x - p1.x) / (p2.y - p1.y) + p1.x
    let dimensionLine := getSVGPathElement
      ("M" ++ xCord.str ++ " " ++ yCord.str ++ " H" ++ hDimX.str)
      "url(#start_arrow)" "stroke:#000000"
    let dimensionLabel := getSVGTextElement dimensionText hDimX hDimY
      "DejaVu Sans" "10px" "" "central"
    ⟨.elem "g" [] [dimensionLine, dimensionLabel], true⟩

/-- Result dictionary of `getStraightRebarSVGData`: svg fragment, visibility
and the (possibly advanced) dimension offsets. -/
structure StraightRebarSVGData where
  svg : XML
  visibility : Bool
  h_dim_y_offset : Q
  v_dim_x_offset : Q

/-- The dimension label text `"{Amount}⌀{Diameter}"` of a straight rebar. -/
def straightDimensionText (rebar : Rebar) : String :=
  toString rebar.amount ++ "⌀" ++ rebar.diameterStr

/-- One iteration of the placement loop in the oblique branch of
`getStraightRebarSVGData`: duplication of each placed line (or degenerate
point) is tested against both the global accumulated svg and the rebar's
own fragment built so far. -/
def straightPlacementStep (factor : Q) (rebar : Rebar)
    (viewPlane : ViewPlane) (rebarsSvg : XML) (s : List XML × Bool)
    (ends : Vec3 × Vec3) : List XML × Bool :=
  let p1 := getProjectionToSVGPlane ends.1 viewPlane
  let p2 := getProjectionToSVGPlane ends.2 viewPlane
  let own : XML := .elem "g" [("id", rebar.name)] s.1
  if pyround p1.x == pyround p2.x && pyround p1.y == pyround p2.y then
    let rebarSvg := getPointSVG p1 (factor * rebar.diameter)
    let vis := s.2 || !(isPointInSVG p1 rebarsSvg || isPointInSVG p1 own)
    (if vis then s.1 ++ [rebarSvg] else s.1, vis)
  else
    let rebarSvg := getLineSVG p1 p2
    let vis := s.2 || !(isLineInSVG p1 p2 rebarsSvg || isLineInSVG p1 p2 own)
    (if vis then s.1 ++ [rebarSvg] else s.1, vis)

/-- `getStraightRebarSVGData(rebar, view_plane, h_dim_x_offset,
h_dim_y_offset, v_dim_x_offset, v_dim_y_offset, rebars_svg)`: straight
rebar svg data.  In the face-on branch a visible rebar also receives a
dimension annotation, after which the offset of the placed orientation is
advanced by 100; the other offset and both offsets of an invisible rebar
are returned unchanged.  `factor` is `config.SVG_POINT_DIA_FACTOR`, passed
explicitly. -/
def getStraightRebarSVGData (factor : Q) (rebar : Rebar)
    (viewPlane : ViewPlane) (hDimXOffset hDimYOffset vDimXOffset vDimYOffset : Q)
    (rebarsSvg : XML) : StraightRebarSVGData :=
  if crossLengthRoundsToZero viewPlane.axis (getRebarsSpanAxis rebar) then
    let p1 := getProjectionToSVGPlane rebar.baseV0 viewPlane
    let p2 := getProjectionToSVGPlane rebar.baseV1 viewPlane
    let pr :=
      if pyround p1.x == pyround p2.x && pyround p1.y == pyround p2.y then
        (getPointSVG p1 (factor * rebar.diameter), !(isPointInSVG p1 rebarsSvg))
      else
        (getLineSVG p1 p2, !(isLineInSVG p1 p2 rebarsSvg))
    if pr.2 then
      let dimensionData := getLineDimensionsData p1 p2
        (straightDimensionText rebar) hDimXOffset hDimYOffset vDimXOffset
        vDimYOffset
      if dimensionData.dimension_line_horizontal then
        ⟨.elem "g" [("id", rebar.name)] [pr.1, dimensionData.svg], true,
          hDimYOffset + 100, vDimXOffset⟩
      else
        ⟨.elem "g" [("id", rebar.name)] [pr.1, dimensionData.svg], true,
          hDimYOffset, vDimXOffset + 100⟩
    else
      ⟨.elem "g" [("id", rebar.name)] [], false, hDimYOffset, vDimXOffset⟩
  else
    let res := rebar.placementEnds.foldl
      (straightPlacementStep factor rebar viewPlane rebarsSvg) ([], false)
    ⟨.elem "g" [("id", rebar.name)] res.1, res.2, hDimYOffset, vDimXOffset⟩

/-- The structural member passed to the assembler; its own outline svg
(`Draft.getSVG(structure, ...)`, an external exporter) is modelled as the
parsed element `draftSvg`. -/
structure StructureObj where
  draftSvg : XML

/-- One drawing request: the inputs of
`getReinforcementDrawingSVG(structure, rebars_list, view_direction)`.
`viewPlane` is the resolved view plane (the `WorkingPlane.plane` branch of
the Python code; the `FreeCAD.Vector` branch delegates to the external
`alignToPointAndAxis`).  `getPoint i` models
`Part.Compound([...]).BoundBox.getPoint(i)`, the i-th corner of the 3D
bounding box enclosing all rebars and the structure — external kernel data.
`svgPointDiaFactor` is the module constant `config.SVG_POINT_DIA_FACTOR`. -/
structure DrawingInput where
  struct : StructureObj
  rebars : List Rebar
  viewPlane : ViewPlane
  getPoint : ℕ → Vec3
  svgPointDiaFactor : Q

/-- The bounding-box corner indices selected for the view-plane axis
(lines 572-583 of the Python module). -/
def drawingPts (viewPlane : ViewPlane) : List ℕ :=
  if viewPlane.axis = ⟨0, -1, 0⟩ then [0, 1, 4, 5]
  else if viewPlane.axis = ⟨0, 1, 0⟩ then [2, 3, 6, 7]
  else if viewPlane.axis = ⟨0, 0, 1⟩ then [0, 1, 2, 3]
  else if viewPlane.axis = ⟨0, 0, -1⟩ then [4, 5, 6, 7]
  else if viewPlane.axis = ⟨1, 0, 0⟩ then [1, 2, 5, 6]
  else [0, 3, 4, 7]

/-- The selected bounding-box corners, projected onto the view plane. -/
def projectedCorners (inp : DrawingInput) : List Vec3 :=
  (drawingPts inp.viewPlane).map fun i =>
    getProjectionToSVGPlane (inp.getPoint i) inp.viewPlane

/-- `min_x` of the projected bounding box (first corner, then folded with
`min` as in the Python loop). -/
def drawingMinX (inp : DrawingInput) : Q :=
  match projectedCorners inp with
  | [] => 0
  | c :: cs => cs.foldl (fun m p => qmin m p.x) c.x

/-- `min_y` of the projected bounding box. -/
def drawingMinY (inp : DrawingInput) : Q :=
  match projectedCorners inp with
  | [] => 0
  | c :: cs => cs.foldl (fun m p => qmin m p.y) c.y

/-- `max_x` of the projected bounding box. -/
def drawingMaxX (inp : DrawingInput) : Q :=
  match projectedCorners inp with
  | [] => 0
  | c :: cs => cs.foldl (fun m p => qmax m p.x) c.x

/-- `max_y` of the projected bounding box. -/
def drawingMaxY (inp : DrawingInput) : Q :=
  match projectedCorners inp with
  | [] => 0
  | c :: cs => cs.foldl (fun m p => qmax m p.y) c.y

/-- Rebars classified as stirrups (`RebarShape == "Stirrup"`), in input
order. -/
def stirrupsOf (inp : DrawingInput) : List Rebar :=
  inp.rebars.filter fun r => r.rebarShape == "Stirrup"

/-- Rebars classified as bent-shape rebars. -/
def bentRebarsOf (inp : DrawingInput) : List Rebar :=
  inp.rebars.filter fun r => r.rebarShape == "BentShapeRebar"

/-- Rebars classified as U-shape rebars. -/
def uRebarsOf (inp : DrawingInput) : List Rebar :=
  inp.rebars.filter fun r => r.rebarShape == "UShapeRebar"

/-- Rebars classified as L-shape rebars. -/
def lRebarsOf (inp : DrawingInput) : List Rebar :=
  inp.rebars.filter fun r => r.rebarShape == "LShapeRebar"

/-- Rebars classified as straight rebars. -/
def straightRebarsOf (inp : DrawingInput) : List Rebar :=
  inp.rebars.filter fun r => r.rebarShape == "StraightRebar"

/-- Rebars classified as helical rebars. -/
def helicalRebarsOf (inp : DrawingInput) : List Rebar :=
  inp.rebars.filter fun r => r.rebarShape == "HelicalRebar"

/-- Rebars whose shape tag matches none of the six known categories
(the catch-all custom bucket). -/
def customRebarsOf (inp : DrawingInput) : List Rebar :=
  inp.rebars.filter fun r =>
    !(r.rebarShape == "Stirrup" || r.rebarShape == "BentShapeRebar" ||
      r.rebarShape == "UShapeRebar" || r.rebarShape == "LShapeRebar" ||
      r.rebarShape == "StraightRebar" || r.rebarShape == "HelicalRebar")

/-- The `rebars_svg` tree as it exists while a category is being processed:
the finished earlier category groups `done`, followed by the current
category's group with the fragments appended so far.  (In Python the
category group is appended to `rebars_svg` before its loop runs, so
builders see exactly this tree.) -/
def mkRebarsSvg (done : List XML) (catId : String) (children : List XML) : XML :=
  .elem "g" [("id", "Rebars")] (done ++ [.elem "g" [("id", catId)] children])

/-- One assembler iteration for a stirrup/bent/U/L category: run the builder
against the current `rebars_svg` and append the fragment to the category
group exactly when the rebar is visible. -/
def catStep (build : Rebar → XML → SVGData) (done : List XML) (catId : String)
    (children : List XML) (r : Rebar) : List XML :=
  let data := build r (mkRebarsSvg done catId children)
  if data.visibility then children ++ [data.svg] else children

/-- The children of a category group after its assembler loop. -/
def catRun (build : Rebar → XML → SVGData) (done : List XML) (catId : String)
    (rs : List Rebar) : List XML :=
  rs.foldl (catStep build done catId) []

/-- The stirrup builder as used by the assembler. -/
def stirrupBuild (inp : DrawingInput) : Rebar → XML → SVGData :=
  fun r svg => getStirrupSVGData r inp.viewPlane svg

/-- The U-shape builder as used by the assembler (also for bent and L-shape
rebars). -/
def uBuild (inp : DrawingInput) : Rebar → XML → SVGData :=
  fun r svg => getUShapeRebarSVGData inp.svgPointDiaFactor r inp.viewPlane svg

/-- Children of the `Stirrup` group after its loop. -/
def stirrupGroupChildren (inp : DrawingInput) : List XML :=
  catRun (stirrupBuild inp) [] "Stirrup" (stirrupsOf inp)

/-- Finished groups before the bent-rebar loop. -/
def done1 (inp : DrawingInput) : List XML :=
  [.elem "g" [("id", "Stirrup")] (stirrupGroupChildren inp)]

/-- Children of the `BentShapeRebar` group after its loop. -/
def bentGroupChildren (inp : DrawingInput) : List XML :=
  catRun (uBuild inp) (done1 inp) "BentShapeRebar" (bentRebarsOf inp)

/-- Finished groups before the U-shape loop. -/
def done2 (inp : DrawingInput) : List XML :=
  done1 inp ++ [.elem "g" [("id", "BentShapeRebar")] (bentGroupChildren inp)]

/-- Children of the `UShapeRebar` group after its loop. -/
def uGroupChildren (inp : DrawingInput) : List XML :=
  catRun (uBuild inp) (done2 inp) "UShapeRebar" (uRebarsOf inp)

/-- Finished groups before the L-shape loop. -/
def done3 (inp : DrawingInput) : List XML :=
  done2 inp ++ [.elem "g" [("id", "UShapeRebar")] (uGroupChildren inp)]

/-- Children of the `LShapeRebar` group after its loop. -/
def lGroupChildren (inp : DrawingInput) : List XML :=
  catRun (uBuild inp) (done3 inp) "LShapeRebar" (lRebarsOf inp)

/-- Finished groups before the straight-rebar loop. -/
def done4 (inp : DrawingInput) : List XML :=
  done3 inp ++ [.elem "g" [("id", "LShapeRebar")] (lGroupChildren inp)]

/-- Initial `h_dim_x_offset = max_x + 50`. -/
def hDimXInit (inp : DrawingInput) : Q := drawingMaxX inp + 50

/-- Initial `h_dim_y_offset = min_y + 50`. -/
def hDimYInit (inp : DrawingInput) : Q := drawingMinY inp + 50

/-- Initial `v_dim_x_offset = min_x + 50`. -/
def vDimXInit (inp : DrawingInput) : Q := drawingMinX inp + 50

/-- Initial `v_dim_y_offset = min_y - 50`. -/
def vDimYInit (inp : DrawingInput) : Q := drawingMinY inp - 50

/-- One assembler iteration of the straight-rebar loop: state is (children
of the `StraightRebar` group, `h_dim_y_offset`, `v_dim_x_offset`); on a
visible rebar the fragment is appended and the offsets are taken from the
builder's result. -/
def straightStep (inp : DrawingInput) (s : List XML × Q × Q) (r : Rebar) :
    List XML × Q × Q :=
  let data := getStraightRebarSVGData inp.svgPointDiaFactor r inp.viewPlane
    (hDimXInit inp) s.2.1 s.2.2 (vDimYInit inp)
    (mkRebarsSvg (done4 inp) "StraightRebar" s.1)
  if data.visibility then (s.1 ++ [data.svg], data.h_dim_y_offset, data.v_dim_x_offset)
  else s

/-- The straight-rebar loop state after processing a list of rebars. -/
def straightFold (inp : DrawingInput) (rs : List Rebar) : List XML × Q × Q :=
  rs.foldl (straightStep inp) ([], hDimYInit inp, vDimXInit inp)

/-- Children of the `StraightRebar` group after its loop. -/
def straightGroupChildren (inp : DrawingInput) : List XML :=
  (straightFold inp (straightRebarsOf inp)).1

/-- Finished groups before the helical-rebar loop. -/
def done5 (inp : DrawingInput) : List XML :=
  done4 inp ++ [.elem "g" [("id", "StraightRebar")] (straightGroupChildren inp)]

/-- Children of the `HelicalRebar` group: every helical rebar's external
svg is appended unconditionally (documented always-visible assumption). -/
def helicalGroupChildren (inp : DrawingInput) : List XML :=
  (helicalRebarsOf inp).map fun r => r.draftSvg

/-- Finished groups before the custom-rebar loop. -/
def done6 (inp : DrawingInput) : List XML :=
  done5 inp ++ [.elem "g" [("id", "HelicalRebar")] (helicalGroupChildren inp)]

/-- Children of the `CustomRebar` group: every custom rebar's external svg
is appended unconditionally. -/
def customGroupChildren (inp : DrawingInput) : List XML :=
  (customRebarsOf inp).map fun r => r.draftSvg

/-- The final `Rebars` group at the end of the assembly pass. -/
def rebarsSvgFinal (inp : DrawingInput) : XML :=
  mkRebarsSvg (done6 inp) "CustomRebar" (customGroupChildren inp)

/-- The `defs` block with the two arrow markers. -/
def defsElement : XML :=
  .elem "defs" []
    [getArrowMarkerElement "start_arrow" "start",
     getArrowMarkerElement "end_arrow" "end"]

/-- The structure outline group (external `Draft.getSVG` output wrapped in
`<g id="structure">`). -/
def structureSvgOf (inp : DrawingInput) : XML :=
  .elem "g" [("id", "structure")] [inp.struct.draftSvg]

/-- `svg_width = round(max_x - min_x + 200)`. -/
def svgWidthOf (inp : DrawingInput) : ℤ :=
  pyround (drawingMaxX inp - drawingMinX inp + 200)

/-- `svg_height = round(max_y - min_y + 200)`. -/
def svgHeightOf (inp : DrawingInput) : ℤ :=
  pyround (drawingMaxY inp - drawingMinY inp + 200)

/-- The drawing group's transform
`translate(round(-min_x + 60), round(-min_y + 100))`. -/
def translateTransform (inp : DrawingInput) : String :=
  "translate(" ++ toString (pyround (-(drawingMinX inp) + 60)) ++ ", " ++
    toString (pyround (-(drawingMinY inp) + 100)) ++ ")"

/-- The `reinforcement_drawing` group: the rebars svg followed by the
structure outline, with the margin translation. -/
def reinforcementDrawing (inp : DrawingInput) : XML :=
  .elem "g"
    [("id", "reinforcement_drawing"), ("transform", translateTransform inp)]
    [rebarsSvgFinal inp, structureSvgOf inp]

/-- `getReinforcementDrawingSVG(structure, rebars_list, view_direction)`:
the root svg document of the reinforcement drawing view. -/
def getReinforcementDrawingSVG (inp : DrawingInput) : XML :=
  let svg := (getSVGRootElement.append defsElement).append
    (reinforcementDrawing inp)
  ((svg.setAttr "width" (toString (svgWidthOf inp) ++ "mm")).setAttr
      "height" (toString (svgHeightOf inp) ++ "mm")).setAttr
    "viewBox"
    ("0 0 " ++ toString (svgWidthOf inp) ++ " " ++ toString (svgHeightOf inp))

/-- The sequence of `rebars_svg` trees seen by the successive builder calls
of one stirrup/bent/U/L category (state before each call, plus the state
after the last call). -/
def catSnaps (build : Rebar → XML → SVGData) (done : List XML)
    (catId : String) (rs : List Rebar) : List XML :=
  (List.range (rs.length + 1)).map fun k =>
    mkRebarsSvg done catId (catRun build done catId (rs.take k))

/-- The `rebars_svg` snapshots of the straight-rebar loop. -/
def straightSnaps (inp : DrawingInput) : List XML :=
  (List.range ((straightRebarsOf inp).length + 1)).map fun k =>
    mkRebarsSvg (done4 inp) "StraightRebar"
      (straightFold inp ((straightRebarsOf inp).take k)).1

/-- The `rebars_svg` snapshots of an unconditional (helical/custom)
category loop. -/
def alwaysSnaps (done : List XML) (catId : String) (rs : List Rebar) :
    List XML :=
  (List.range (rs.length + 1)).map fun k =>
    mkRebarsSvg done catId ((rs.take k).map fun r => r.draftSvg)

/-- All `rebars_svg` states of one assembly pass, in the order the builder
calls observe them (category order: stirrup, bent, U, L, straight, helical,
custom). -/
def drawingSnapshots (inp : DrawingInput) : List XML :=
  catSnaps (stirrupBuild inp) [] "Stirrup" (stirrupsOf inp) ++
  catSnaps (uBuild inp) (done1 inp) "BentShapeRebar" (bentRebarsOf inp) ++
  catSnaps (uBuild inp) (done2 inp) "UShapeRebar" (uRebarsOf inp) ++
  catSnaps (uBuild inp) (done3 inp) "LShapeRebar" (lRebarsOf inp) ++
  straightSnaps inp ++
  alwaysSnaps (done5 inp) "HelicalRebar" (helicalRebarsOf inp) ++
  alwaysSnaps (done6 inp) "CustomRebar" (customRebarsOf inp)

/-- Growth order on svg trees: every element query that does not look at
children (such as the path-`d` and circle-centre matchers used by the
duplicate tests) succeeding on `s` also succeeds on `s'`.  This is the
shallow statement of "every element present in `s` is present in `s'`". -/
def svgLE (s s' : XML) : Prop :=
  ∀ p : XML → Bool,
    (∀ t a cs cs', p (.elem t a cs) = p (.elem t a cs')) →
    XML.findDesc p s = true → XML.findDesc p s' = true

instance : IsTrans XML svgLE :=
  ⟨fun _ _ _ hab hbc p hp h => hbc p hp (hab p hp h)⟩

/-- Whether the drawing-plane normal is parallel to the rebar's span axis
(the rounded cross-product length is zero), selecting the face-on branch of
every builder. -/
def isFaceOn (rebar : Rebar) (viewPlane : ViewPlane) : Bool :=
  crossLengthRoundsToZero viewPlane.axis (getRebarsSpanAxis rebar)

/-- The `y` attribute of the dimension label inside a straight rebar's
fragment (the fragment's second child is the dimension group, whose second
child is the text label). -/
def dimLabelYOf (frag : XML) : Option String :=
  ((frag.children[1]?).bind fun d => d.children[1]?).bind fun t =>
    t.getAttr "y"

/-- The `"Top"` view plane, used by the concrete instances below. -/
def topViewPlane : ViewPlane := ⟨⟨0, 0, 1⟩, ⟨1, 0, 0⟩, ⟨0, -1, 0⟩⟩

/-- An empty svg group. -/
def emptySvg : XML := .elem "g" [] []

/-- A round-corner edge whose projections are `(0,0)` and `(10,5)` in the
top view, traversed forward (sweep flag 0). -/
def arcEdgeFwd : Edge := ⟨.circle, ⟨0, 0, 0⟩, ⟨10, -5, 0⟩, ⟨1, 0, 0⟩, ⟨0, 1, 0⟩⟩

/-- The same geometric corner traversed in the reversed direction: endpoints
swapped and tangents reversed, so its sweep flag is 1. -/
def arcEdgeRev : Edge := ⟨.circle, ⟨10, -5, 0⟩, ⟨0, 0, 0⟩, ⟨0, 1, 0⟩, ⟨1, 0, 0⟩⟩

/-- An accumulated svg containing the corner's arc as stored from the
reversed traversal (path `M10 5 A3 3 0 0 1 0 0`). -/
def svgRevArc : XML := .elem "svg" [] [getRoundCornerSVG arcEdgeRev 3 topViewPlane]

/-- A straight edge with projections `(0,0)` → `(10,0)` in the top view. -/
def lineEdgeA : Edge := ⟨.line, ⟨0, 0, 0⟩, ⟨10, 0, 0⟩, ⟨1, 0, 0⟩, ⟨1, 0, 0⟩⟩

/-- A straight edge with projections `(10,0)` → `(10,5)` in the top view. -/
def lineEdgeB : Edge := ⟨.line, ⟨10, 0, 0⟩, ⟨10, -5, 0⟩, ⟨0, -1, 0⟩, ⟨0, -1, 0⟩⟩

/-- A face-on stirrup with edge 1 = `lineEdgeA` and edge 2 = `lineEdgeB`. -/
def stirrupC2 : Rebar :=
  { name := "S1", rebarShape := "Stirrup", diameter := 8,
    diameterStr := "8.0 mm", amount := 2, rounding := 2,
    spanAxis := ⟨0, 0, 1⟩, edges := [lineEdgeA, lineEdgeB],
    baseV0 := ⟨0, 0, 0⟩, baseV1 := ⟨10, 0, 0⟩,
    placementWireVertices := [], placementEnds := [], placementEdges := [],
    draftSvg := emptySvg }

/-- An accumulated svg already containing edge 1's line (`M0 0 L10 0`). -/
def svgWithEdgeA : XML := .elem "g" [] [getLineSVG ⟨0, 0, 0⟩ ⟨10, 0, 0⟩]

/-- A `Circle` edge whose projected endpoints `(0,0)` and `(10,0)` share the
rounded y coordinate (the aligned case of the U-shape builder). -/
def alignedCircleEdge : Edge :=
  ⟨.circle, ⟨0, 0, 0⟩, ⟨10, 0, 0⟩, ⟨1, 0, 0⟩, ⟨0, 1, 0⟩⟩

/-- A face-on U-shape rebar whose only edge is `alignedCircleEdge`. -/
def uRebarC4 : Rebar :=
  { name := "U1", rebarShape := "UShapeRebar", diameter := 8,
    diameterStr := "8.0 mm", amount := 2, rounding := 2,
    spanAxis := ⟨0, 0, 1⟩, edges := [alignedCircleEdge],
    baseV0 := ⟨0, 0, 0⟩, baseV1 := ⟨10, 0, 0⟩,
    placementWireVertices := [], placementEnds := [], placementEdges := [],
    draftSvg := emptySvg }

/-- A straight edge whose projected endpoints `(0,0)` and `(1/4,0)` round to
the same integer coordinate (a degenerate projection). -/
def degenerateLineEdge : Edge :=
  ⟨.line, ⟨0, 0, 0⟩, ⟨mkQ 1 4, 0, 0⟩, ⟨1, 0, 0⟩, ⟨1, 0, 0⟩⟩

/-- A face-on stirrup whose only edge is the degenerate `degenerateLineEdge`. -/
def stirrupC5 : Rebar :=
  { name := "S2", rebarShape := "Stirrup", diameter := 8,
    diameterStr := "8.0 mm", amount := 2, rounding := 2,
    spanAxis := ⟨0, 0, 1⟩, edges := [degenerateLineEdge],
    baseV0 := ⟨0, 0, 0⟩, baseV1 := ⟨10, 0, 0⟩,
    placementWireVertices := [], placementEnds := [], placementEdges := [],
    draftSvg := emptySvg }

/-- A face-on U-shape rebar whose only edge is the degenerate line edge. -/
def uRebarC10 : Rebar :=
  { name := "U2", rebarShape := "UShapeRebar", diameter := 8,
    diameterStr := "8.0 mm", amount := 2, rounding := 2,
    spanAxis := ⟨0, 0, 1⟩, edges := [degenerateLineEdge],
    baseV0 := ⟨0, 0, 0⟩, baseV1 := ⟨10, 0, 0⟩,
    placementWireVertices := [], placementEnds := [], placementEdges := [],
    draftSvg := emptySvg }

/-- A face-on straight rebar whose base vertices project to `(0,0)` and
`(1/4,0)` — the same integer point after rounding. -/
def straightDegen : Rebar :=
  { name := "T0", rebarShape := "StraightRebar", diameter := 8,
    diameterStr := "8.0 mm", amount := 2, rounding := 0,
    spanAxis := ⟨0, 0, 1⟩, edges := [],
    baseV0 := ⟨0, 0, 0⟩, baseV1 := ⟨mkQ 1 4, 0, 0⟩,
    placementWireVertices := [], placementEnds := [], placementEdges := [],
    draftSvg := .elem "g" [] [] }

/-- A face-on straight rebar with projections `(0,0)` → `(10,0)`. -/
def straightR1 : Rebar :=
  { name := "T1", rebarShape := "StraightRebar", diameter := 8,
    diameterStr := "8.0 mm", amount := 2, rounding := 0,
    spanAxis := ⟨0, 0, 1⟩, edges := [],
    baseV0 := ⟨0, 0, 0⟩, baseV1 := ⟨10, 0, 0⟩,
    placementWireVertices := [], placementEnds := [], placementEdges := [],
    draftSvg := emptySvg }

/-- A second straight rebar geometrically identical to `straightR1` (same
projected endpoints). -/
def straightR2 : Rebar :=
  { name := "T2", rebarShape := "StraightRebar", diameter := 8,
    diameterStr := "8.0 mm", amount := 2, rounding := 0,
    spanAxis := ⟨0, 0, 1⟩, edges := [],
    baseV0 := ⟨0, 0, 0⟩, baseV1 := ⟨10, 0, 0⟩,
    placementWireVertices := [], placementEnds := [], placementEdges := [],
    draftSvg := emptySvg }

/-- A drawing request with the two identical straight rebars. -/
def inpC3 : DrawingInput :=
  { struct := ⟨emptySvg⟩, rebars := [straightR1, straightR2],
    viewPlane := topViewPlane, getPoint := fun _ => ⟨0, 0, 0⟩,
    svgPointDiaFactor := 2 }

/-- A face-on straight rebar whose projected segment `(0,0)` → `(0,5)` is
vertical, so its dimension line is horizontal. -/
def vertR1 : Rebar :=
  { name := "V1", rebarShape := "StraightRebar", diameter := 8,
    diameterStr := "8.0 mm", amount := 2, rounding := 0,
    spanAxis := ⟨0, 0, 1⟩, edges := [],
    baseV0 := ⟨0, 0, 0⟩, baseV1 := ⟨0, -5, 0⟩,
    placementWireVertices := [], placementEnds := [], placementEdges := [],
    draftSvg := emptySvg }

/-- A second vertical straight rebar at `x = 7`. -/
def vertR2 : Rebar :=
  { name := "V2", rebarShape := "StraightRebar", diameter := 8,
    diameterStr := "8.0 mm", amount := 2, rounding := 0,
    spanAxis := ⟨0, 0, 1⟩, edges := [],
    baseV0 := ⟨7, 0, 0⟩, baseV1 := ⟨7, -5, 0⟩,
    placementWireVertices := [], placementEnds := [], placementEdges := [],
    draftSvg := emptySvg }

/-- A drawing request with the two vertical straight rebars. -/
def inpC6 : DrawingInput :=
  { struct := ⟨emptySvg⟩, rebars := [vertR1, vertR2],
    viewPlane := topViewPlane, getPoint := fun _ => ⟨0, 0, 0⟩,
    svgPointDiaFactor := 2 }

/-- A face-on stirrup with one novel line edge. -/
def stirrupC9 : Rebar :=
  { name := "S9", rebarShape := "Stirrup", diameter := 8,
    diameterStr := "8.0 mm", amount := 2, rounding := 2,
    spanAxis := ⟨0, 0, 1⟩, edges := [lineEdgeA],
    baseV0 := ⟨0, 0, 0⟩, baseV1 := ⟨10, 0, 0⟩,
    placementWireVertices := [], placementEnds := [], placementEdges := [],
    draftSvg := emptySvg }

/-- A drawing request with the single stirrup, for the snapshot witness. -/
def inpC9 : DrawingInput :=
  { struct := ⟨emptySvg⟩, rebars := [stirrupC9],
    viewPlane := topViewPlane, getPoint := fun _ => ⟨0, 0, 0⟩,
    svgPointDiaFactor := 2 }

theorem findDesc_elem (p : XML → Bool) (t : String)
    (a : List (String × String)) (cs : List XML) :
    XML.findDesc p (.elem t a cs) = findDescList p cs := by
  rw [XML.findDesc]

theorem findDescList_nil (p : XML → Bool) : findDescList p [] = false := by
  rw [findDescList]

theorem findDescList_cons (p : XML → Bool) (c : XML) (cs : List XML) :
    findDescList p (c :: cs) =
      ((p c || XML.findDesc p c) || findDescList p cs) := by
  rw [findDescList]

theorem findDescList_append (p : XML → Bool) (l1 l2 : List XML) :
    findDescList p (l1 ++ l2) = (findDescList p l1 || findDescList p l2) := by
  induction l1 with
  | nil => simp [findDescList_nil]
  | cons c cs ih =>
      simp [findDescList_cons, ih, Bool.or_assoc]

theorem findDescList_of_mem {p : XML → Bool} {c : XML} {l : List XML}
    (hmem : c ∈ l) (h : (p c || XML.findDesc p c) = true) :
    findDescList p l = true := by
  induction l with
  | nil => cases hmem
  | cons d ds ih =>
      rcases List.mem_cons.mp hmem with rfl | hm
      · simp [findDescList_cons, h]
      · simp [findDescList_cons, ih hm]

theorem svgLE_refl (s : XML) : svgLE s s := fun _ _ h => h

theorem svgLE_mkRebarsSvg_append (done : List XML) (catId : String)
    (cs extra : List XML) :
    svgLE (mkRebarsSvg done catId cs) (mkRebarsSvg done catId (cs ++ extra)) := by
  intro p hp h
  have hg : p (.elem "g" [("id", catId)] (cs ++ extra)) =
      p (.elem "g" [("id", catId)] cs) := hp _ _ _ _
  simp only [mkRebarsSvg, findDesc_elem, findDescList_append, findDescList_cons,
    findDescList_nil, Bool.or_false, Bool.or_eq_true, hg] at h ⊢
  tauto

theorem svgLE_mkRebarsSvg_newGroup (done : List XML) (catId catId' : String)
    (cs : List XML) :
    svgLE (mkRebarsSvg done catId cs)
      (mkRebarsSvg (done ++ [.elem "g" [("id", catId)] cs]) catId' []) := by
  intro p hp h
  simp only [mkRebarsSvg, findDesc_elem, findDescList_append, findDescList_cons,
    findDescList_nil, Bool.or_false, Bool.or_eq_true] at h ⊢
  tauto

theorem catStep_extends (build : Rebar → XML → SVGData) (done : List XML)
    (catId : String) (children : List XML) (r : Rebar) :
    ∃ extra, catStep build done catId children r = children ++ extra := by
  rw [catStep]
  by_cases h : (build r (mkRebarsSvg done catId children)).visibility
  · exact ⟨[(build r (mkRebarsSvg done catId children)).svg], by simp [h]⟩
  · exact ⟨[], by simp [h]⟩

theorem catRun_take_succ (build : Rebar → XML → SVGData) (done : List XML)
    (catId : String) (rs : List Rebar) (k : ℕ) :
    ∃ extra, catRun build done catId (rs.take (k + 1)) =
      catRun build done catId (rs.take k) ++ extra := by
  rw [catRun, catRun, List.take_succ]
  cases h : rs[k]? with
  | none => exact ⟨[], by simp⟩
  | some r =>
      simp only [Option.toList, List.foldl_append, List.foldl_cons,
        List.foldl_nil]
      exact catStep_extends build done catId _ r

theorem straightStep_extends (inp : DrawingInput) (s : List XML × Q × Q)
    (r : Rebar) : ∃ extra, (straightStep inp s r).1 = s.1 ++ extra := by
  rw [straightStep]
  by_cases h : (getStraightRebarSVGData inp.svgPointDiaFactor r inp.viewPlane
      (hDimXInit inp) s.2.1 s.2.2 (vDimYInit inp)
      (mkRebarsSvg (done4 inp) "StraightRebar" s.1)).visibility
  · exact ⟨[(getStraightRebarSVGData inp.svgPointDiaFactor r inp.viewPlane
      (hDimXInit inp) s.2.1 s.2.2 (vDimYInit inp)
      (mkRebarsSvg (done4 inp) "StraightRebar" s.1)).svg], by simp [h]⟩
  · exact ⟨[], by simp [h]⟩

theorem straightFold_take_succ (inp : DrawingInput) (rs : List Rebar) (k : ℕ) :
    ∃ extra, (straightFold inp (rs.take (k + 1))).1 =
      (straightFold inp (rs.take k)).1 ++ extra := by
  rw [straightFold, straightFold, List.take_succ]
  cases h : rs[k]? with
  | none => exact ⟨[], by simp⟩
  | some r =>
      simp only [Option.toList, List.foldl_append, List.foldl_cons,
        List.foldl_nil]
      exact straightStep_extends inp _ r

theorem catSnaps_chain (build : Rebar → XML → SVGData) (done : List XML)
    (catId : String) (rs : List Rebar) :
    List.Chain' svgLE (catSnaps build done catId rs) := by
  rw [catSnaps]
  refine (List.chain'_map _).mpr ?_
  refine (List.chain'_range_succ _ _).mpr ?_
  intro m _hm
  obtain ⟨extra, he⟩ := catRun_take_succ build done catId rs m
  rw [he]
  exact svgLE_mkRebarsSvg_append done catId _ extra

theorem straightSnaps_chain (inp : DrawingInput) :
    List.Chain' svgLE (straightSnaps inp) := by
  rw [straightSnaps]
  refine (List.chain'_map _).mpr ?_
  refine (List.chain'_range_succ _ _).mpr ?_
  intro m _hm
  obtain ⟨extra, he⟩ := straightFold_take_succ inp (straightRebarsOf inp) m
  rw [he]
  exact svgLE_mkRebarsSvg_append (done4 inp) "StraightRebar" _ extra

theorem alwaysSnaps_chain (done : List XML) (catId : String)
    (rs : List Rebar) : List.Chain' svgLE (alwaysSnaps done catId rs) := by
  rw [alwaysSnaps]
  refine (List.chain'_map _).mpr ?_
  refine (List.chain'_range_succ _ _).mpr ?_
  intro m _hm
  rw [List.take_succ, List.map_append]
  exact svgLE_mkRebarsSvg_append done catId _ _

theorem catSnaps_head (build : Rebar → XML → SVGData) (done : List XML)
    (catId : String) (rs : List Rebar) :
    (catSnaps build done catId rs).head? = some (mkRebarsSvg done catId []) := by
  rw [catSnaps, List.head?_eq_getElem?]
  simp [List.getElem?_map, List.getElem?_range, catRun]

theorem catSnaps_getLast (build : Rebar → XML → SVGData) (done : List XML)
    (catId : String) (rs : List Rebar) :
    (catSnaps build done catId rs).getLast? =
      some (mkRebarsSvg done catId (catRun build done catId rs)) := by
  rw [catSnaps, List.getLast?_eq_getElem?]
  simp [List.getElem?_map, List.getElem?_range, List.take_length]

theorem straightSnaps_head (inp : DrawingInput) :
    (straightSnaps inp).head? =
      some (mkRebarsSvg (done4 inp) "StraightRebar" []) := by
  rw [straightSnaps, List.head?_eq_getElem?]
  simp [List.getElem?_map, List.getElem?_range, straightFold]

theorem straightSnaps_getLast (inp : DrawingInput) :
    (straightSnaps inp).getLast? =
      some (mkRebarsSvg (done4 inp) "StraightRebar"
        (straightGroupChildren inp)) := by
  rw [straightSnaps, List.getLast?_eq_getElem?]
  simp [List.getElem?_map, List.getElem?_range, List.take_length,
    straightGroupChildren]

theorem alwaysSnaps_head (done : List XML) (catId : String) (rs : List Rebar) :
    (alwaysSnaps done catId rs).head? = some (mkRebarsSvg done catId []) := by
  rw [alwaysSnaps, List.head?_eq_getElem?]
  simp [List.getElem?_map, List.getElem?_range]

theorem alwaysSnaps_getLast (done : List XML) (catId : String)
    (rs : List Rebar) :
    (alwaysSnaps done catId rs).getLast? =
      some (mkRebarsSvg done catId (rs.map fun r => r.draftSvg)) := by
  rw [alwaysSnaps, List.getLast?_eq_getElem?]
  have ht : List.take rs.length (List.map (fun r => r.draftSvg) rs) =
      List.map (fun r => r.draftSvg) rs :=
    List.take_of_length_le (by simp)
  simp [List.getElem?_map, List.getElem?_range, ht]

theorem catSnaps_ne_nil (build : Rebar → XML → SVGData) (done : List XML)
    (catId : String) (rs : List Rebar) : catSnaps build done catId rs ≠ [] := by
  rw [catSnaps]
  simp [List.range_succ]

theorem straightSnaps_ne_nil (inp : DrawingInput) : straightSnaps inp ≠ [] := by
  rw [straightSnaps]
  simp [List.range_succ]

theorem alwaysSnaps_ne_nil (done : List XML) (catId : String)
    (rs : List Rebar) : alwaysSnaps done catId rs ≠ [] := by
  rw [alwaysSnaps]
  simp [List.range_succ]

theorem chainAppendAux {l1 l2 : List XML} {x y : XML}
    (h1 : List.Chain' svgLE l1) (h2 : List.Chain' svgLE l2)
    (hx : l1.getLast? = some x) (hy : l2.head? = some y) (hxy : svgLE x y) :
    List.Chain' svgLE (l1 ++ l2) := by
  refine List.chain'_append.mpr ⟨h1, h2, ?_⟩
  intro a ha b hb
  rw [hx] at ha
  rw [hy] at hb
  simp only [Option.mem_def, Option.some_inj] at ha hb
  subst ha
  subst hb
  exact hxy

theorem drawingSnapshots_chain (inp : DrawingInput) :
    List.Chain' svgLE (drawingSnapshots inp) := by
  rw [drawingSnapshots]
  simp only [List.append_assoc]
  refine chainAppendAux (catSnaps_chain _ _ _ _) ?_ (catSnaps_getLast _ _ _ _)
    (by rw [List.head?_append_of_ne_nil _ (catSnaps_ne_nil _ _ _ _)]; exact catSnaps_head _ _ _ _)
    (by have h := svgLE_mkRebarsSvg_newGroup [] "Stirrup" "BentShapeRebar"
          (catRun (stirrupBuild inp) [] "Stirrup" (stirrupsOf inp))
        simpa [done1, stirrupGroupChildren] using h)
  refine chainAppendAux (catSnaps_chain _ _ _ _) ?_ (catSnaps_getLast _ _ _ _)
    (by rw [List.head?_append_of_ne_nil _ (catSnaps_ne_nil _ _ _ _)]; exact catSnaps_head _ _ _ _)
    (by have h := svgLE_mkRebarsSvg_newGroup (done1 inp) "BentShapeRebar" "UShapeRebar"
          (catRun (uBuild inp) (done1 inp) "BentShapeRebar" (bentRebarsOf inp))
        simpa [done2, bentGroupChildren] using h)
  refine chainAppendAux (catSnaps_chain _ _ _ _) ?_ (catSnaps_getLast _ _ _ _)
    (by rw [List.head?_append_of_ne_nil _ (catSnaps_ne_nil _ _ _ _)]; exact catSnaps_head _ _ _ _)
    (by have h := svgLE_mkRebarsSvg_newGroup (done2 inp) "UShapeRebar" "LShapeRebar"
          (catRun (uBuild inp) (done2 inp) "UShapeRebar" (uRebarsOf inp))
        simpa [done3, uGroupChildren] using h)
  refine chainAppendAux (catSnaps_chain _ _ _ _) ?_ (catSnaps_getLast _ _ _ _)
    (by rw [List.head?_append_of_ne_nil _ (straightSnaps_ne_nil _)]; exact straightSnaps_head _)
    (by have h := svgLE_mkRebarsSvg_newGroup (done3 inp) "LShapeRebar" "StraightRebar"
          (catRun (uBuild inp) (done3 inp) "LShapeRebar" (lRebarsOf inp))
        simpa [done4, lGroupChildren] using h)
  refine chainAppendAux (straightSnaps_chain _) ?_ (straightSnaps_getLast _)
    (by rw [List.head?_append_of_ne_nil _ (alwaysSnaps_ne_nil _ _ _)]; exact alwaysSnaps_head _ _ _)
    (by have h := svgLE_mkRebarsSvg_newGroup (done4 inp) "StraightRebar" "HelicalRebar"
          (straightGroupChildren inp)
        simpa [done5] using h)
  exact chainAppendAux (alwaysSnaps_chain _ _ _) (alwaysSnaps_chain _ _ _)
    (alwaysSnaps_getLast _ _ _) (alwaysSnaps_head _ _ _)
    (by have h := svgLE_mkRebarsSvg_newGroup (done5 inp) "HelicalRebar" "CustomRebar"
          (helicalGroupChildren inp)
        simpa [done6] using h)

theorem findPathD_mono {s s' : XML} (h : svgLE s s') (d : String) :
    findPathD d s = true → findPathD d s' = true :=
  h _ fun _ _ _ _ => rfl

theorem findCircle_mono {s s' : XML} (h : svgLE s s') (cx cy : ℤ) :
    findCircle cx cy s = true → findCircle cx cy s' = true :=
  h _ fun _ _ _ _ => rfl

theorem isRoundCornerInSVG_eq_or (edge : Edge) (radius : Q)
    (viewPlane : ViewPlane) (svg : XML) :
    isRoundCornerInSVG edge radius viewPlane svg =
      (findPathD
        (arcD (pyround (getProjectionToSVGPlane edge.v0 viewPlane).x)
          (pyround (getProjectionToSVGPlane edge.v0 viewPlane).y)
          (pyround radius) (toString (sweepFlag edge viewPlane))
          (pyround (getProjectionToSVGPlane edge.v1 viewPlane).x)
          (pyround (getProjectionToSVGPlane edge.v1 viewPlane).y)) svg ||
       findPathD
        (arcD (pyround (getProjectionToSVGPlane edge.v1 viewPlane).x)
          (pyround (getProjectionToSVGPlane edge.v1 viewPlane).y)
          (pyround radius) (pyBoolStr (sweepFlag edge viewPlane == 0))
          (pyround (getProjectionToSVGPlane edge.v0 viewPlane).x)
          (pyround (getProjectionToSVGPlane edge.v0 viewPlane).y)) svg) := by
  simp only [isRoundCornerInSVG]
  by_cases h1 : findPathD
      (arcD (pyround (getProjectionToSVGPlane edge.v0 viewPlane).x)
        (pyround (getProjectionToSVGPlane edge.v0 viewPlane).y)
        (pyround radius) (toString (sweepFlag edge viewPlane))
        (pyround (getProjectionToSVGPlane edge.v1 viewPlane).x)
        (pyround (getProjectionToSVGPlane edge.v1 viewPlane).y)) svg <;>
    by_cases h2 : findPathD
      (arcD (pyround (getProjectionToSVGPlane edge.v1 viewPlane).x)
        (pyround (getProjectionToSVGPlane edge.v1 viewPlane).y)
        (pyround radius) (pyBoolStr (sweepFlag edge viewPlane == 0))
        (pyround (getProjectionToSVGPlane edge.v0 viewPlane).x)
        (pyround (getProjectionToSVGPlane edge.v0 viewPlane).y)) svg <;>
    simp [h1, h2]

theorem drawingSnapshots_pairwise (inp : DrawingInput) :
    List.Pairwise svgLE (drawingSnapshots inp) :=
  List.chain'_iff_pairwise.mp (drawingSnapshots_chain inp)

/-- Claim C9: throughout one assembly pass of `getReinforcementDrawingSVG`,
the accumulated `rebars_svg` only grows: the shape builders only query it
and the assembler only appends fragments into the current category group,
so every element query that ignores children (in particular the path and
circle searches behind `isLineInSVG`, `isPointInSVG` and
`isRoundCornerInSVG`) succeeding on the `rebars_svg` state of some builder
call still succeeds on the state of every later call. -/
theorem rebarsSvg_grows_monotonically (inp : DrawingInput) (i j : ℕ)
    (hi : i < (drawingSnapshots inp).length)
    (hj : j < (drawingSnapshots inp).length) (hij : i ≤ j) :
    svgLE ((drawingSnapshots inp).get ⟨i, hi⟩)
        ((drawingSnapshots inp).get ⟨j, hj⟩) ∧
    (∀ p1 p2 : Vec3,
      isLineInSVG p1 p2 ((drawingSnapshots inp).get ⟨i, hi⟩) = true →
      isLineInSVG p1 p2 ((drawingSnapshots inp).get ⟨j, hj⟩) = true) ∧
    (∀ pt : Vec3,
      isPointInSVG pt ((drawingSnapshots inp).get ⟨i, hi⟩) = true →
      isPointInSVG pt ((drawingSnapshots inp).get ⟨j, hj⟩) = true) ∧
    (∀ (edge : Edge) (radius : Q),
      isRoundCornerInSVG edge radius inp.viewPlane
          ((drawingSnapshots inp).get ⟨i, hi⟩) = true →
      isRoundCornerInSVG edge radius inp.viewPlane
          ((drawingSnapshots inp).get ⟨j, hj⟩) = true) := by
  have hle : svgLE ((drawingSnapshots inp).get ⟨i, hi⟩)
      ((drawingSnapshots inp).get ⟨j, hj⟩) := by
    rcases Nat.lt_or_ge i j with hlt | hge
    · exact List.pairwise_iff_get.mp (drawingSnapshots_pairwise inp)
        ⟨i, hi⟩ ⟨j, hj⟩ hlt
    · have hij' : i = j := le_antisymm hij hge
      subst hij'
      exact svgLE_refl _
  refine ⟨hle, ?_, ?_, ?_⟩
  · intro p1 p2 h
    simp only [isLineInSVG, Bool.or_eq_true] at h ⊢
    rcases h with h | h
    · exact Or.inl (findPathD_mono hle _ h)
    · exact Or.inr (findPathD_mono hle _ h)
  · intro pt h
    simp only [isPointInSVG] at h ⊢
    exact findCircle_mono hle _ _ h
  · intro edge radius h
    rw [isRoundCornerInSVG_eq_or] at h ⊢
    simp only [Bool.or_eq_true] at h ⊢
    rcases h with h | h
    · exact Or.inl (findPathD_mono hle _ h)
    · exact Or.inr (findPathD_mono hle _ h)

/-- Witness for C9 at a concrete drawing request: the stirrup's line,
present in the snapshot right after the stirrup loop, is still found by the
duplicate query at the final snapshot. -/
theorem rebarsSvg_grows_monotonically_witness :
    isLineInSVG ⟨0, 0, 0⟩ ⟨10, 0, 0⟩
      ((drawingSnapshots inpC9).get ⟨7, by decide⟩) = true :=
  (rebarsSvg_grows_monotonically inpC9 1 7 (by decide) (by decide)
    (by decide)).2.1 ⟨0, 0, 0⟩ ⟨10, 0, 0⟩ (by decide)

/-- Claim C8: for each of the six named views, `getViewPlane` returns
exactly the hardcoded (axis, u, v) triple of the source (Front axis
(0,-1,0), Rear (0,1,0), Left (-1,0,0), Right (1,0,0), Top (0,0,1), Bottom
(0,0,-1), with the paired u/v vectors as in the source), and for every
other view name it reports an error and returns nothing. -/
theorem getViewPlane_spec :
    getViewPlane "Front" = some ⟨⟨0, -1, 0⟩, ⟨1, 0, 0⟩, ⟨0, 0, -1⟩⟩ ∧
    getViewPlane "Rear" = some ⟨⟨0, 1, 0⟩, ⟨-1, 0, 0⟩, ⟨0, 0, -1⟩⟩ ∧
    getViewPlane "Left" = some ⟨⟨-1, 0, 0⟩, ⟨0, -1, 0⟩, ⟨0, 0, -1⟩⟩ ∧
    getViewPlane "Right" = some ⟨⟨1, 0, 0⟩, ⟨0, 1, 0⟩, ⟨0, 0, -1⟩⟩ ∧
    getViewPlane "Top" = some ⟨⟨0, 0, 1⟩, ⟨1, 0, 0⟩, ⟨0, -1, 0⟩⟩ ∧
    getViewPlane "Bottom" = some ⟨⟨0, 0, -1⟩, ⟨1, 0, 0⟩, ⟨0, 1, 0⟩⟩ ∧
    ∀ view : String, view ≠ "Front" → view ≠ "Rear" → view ≠ "Left" →
      view ≠ "Right" → view ≠ "Top" → view ≠ "Bottom" →
      getViewPlane view = none := by
  refine ⟨by decide, by decide, by decide, by decide, by decide, by decide, ?_⟩
  intro view h1 h2 h3 h4 h5 h6
  simp [getViewPlane, h1, h2, h3, h4, h5, h6]

/-- Witness for C8: an unsupported view name resolves to nothing. -/
theorem getViewPlane_spec_witness : getViewPlane "Axonometric" = none :=
  getViewPlane_spec.2.2.2.2.2.2 "Axonometric" (by decide) (by decide)
    (by decide) (by decide) (by decide) (by decide)

/-- Claim C1 (code bug): the accumulated svg `svgRevArc` stores the corner's
arc exactly as `getRoundCornerSVG` writes it for the reversed traversal —
path `M10 5 A3 3 0 0 1 0 0`, i.e. swapped endpoints with complemented sweep
flag — yet `isRoundCornerInSVG` queried with the forward edge returns
`false`: its reversed-endpoint query interpolates the Python bool
`not flag_sweep`, so that query's sweep field reads `"True"`/`"False"` and
never matches any stored path.  The duplicate test is therefore not
symmetric under endpoint reversal, contrary to the evident purpose of the
second query. -/
theorem isRoundCornerInSVG_misses_reversed_arc :
    (getRoundCornerSVG arcEdgeRev 3 topViewPlane).getAttr "d" =
      some "M10 5 A3 3 0 0 1 0 0" ∧
    (getRoundCornerSVG arcEdgeFwd 3 topViewPlane).getAttr "d" =
      some "M0 0 A3 3 0 0 0 10 5" ∧
    findPathD "M10 5 A3 3 0 0 1 0 0" svgRevArc = true ∧
    isRoundCornerInSVG arcEdgeFwd 3 topViewPlane svgRevArc = false := by
  decide

/-- Claim C7: the root svg's width and height are the projected bounding
extent plus 200 units, rounded and suffixed `mm`; the viewBox is
`0 0 width height` with the same rounded values; and the drawing group's
transform is `translate(round(-min_x + 60), round(-min_y + 100))`. -/
theorem drawing_document_frame (inp : DrawingInput) :
    (getReinforcementDrawingSVG inp).getAttr "width" =
      some (toString (pyround (drawingMaxX inp - drawingMinX inp + 200)) ++ "mm") ∧
    (getReinforcementDrawingSVG inp).getAttr "height" =
      some (toString (pyround (drawingMaxY inp - drawingMinY inp + 200)) ++ "mm") ∧
    (getReinforcementDrawingSVG inp).getAttr "viewBox" =
      some ("0 0 " ++
        toString (pyround (drawingMaxX inp - drawingMinX inp + 200)) ++ " " ++
        toString (pyround (drawingMaxY inp - drawingMinY inp + 200))) ∧
    ((getReinforcementDrawingSVG inp).children.getD 1 emptySvg).getAttr
        "transform" =
      some ("translate(" ++ toString (pyround (-(drawingMinX inp) + 60)) ++
        ", " ++ toString (pyround (-(drawingMinY inp) + 100)) ++ ")") := by
  refine ⟨?_, ?_, ?_, ?_⟩ <;>
    simp [getReinforcementDrawingSVG, svgWidthOf, svgHeightOf, XML.setAttr,
      setAssoc, XML.getAttr, XML.append, getSVGRootElement, XML.tag, XML.attrs,
      XML.children, List.lookup, reinforcementDrawing, translateTransform,
      List.getD]

/-- Claim C10: in the face-on branch of the U/bent/L-shape builder, a
straight edge whose projected endpoints round to the same integer
coordinate is never tested against the accumulated svg (the step result is
the same for any accumulated svg), never changes the visibility flag, and
its point marker is appended exactly when an earlier edge of the same rebar
already made the rebar visible. -/
theorem uShape_degenerate_point_rules (factor diameter radius : Q)
    (viewPlane : ViewPlane) (edge : Edge) (s : List XML × Bool)
    (hline : edge.geomType = GeomType.line)
    (hpx : pyround (getProjectionToSVGPlane edge.v0 viewPlane).x =
      pyround (getProjectionToSVGPlane edge.v1 viewPlane).x)
    (hpy : pyround (getProjectionToSVGPlane edge.v0 viewPlane).y =
      pyround (getProjectionToSVGPlane edge.v1 viewPlane).y) :
    (∀ svg svg' : XML,
      uShapeFaceOnStep factor diameter radius viewPlane svg s edge =
        uShapeFaceOnStep factor diameter radius viewPlane svg' s edge) ∧
    ∀ svg : XML,
      (uShapeFaceOnStep factor diameter radius viewPlane svg s edge).2 = s.2 ∧
      (uShapeFaceOnStep factor diameter radius viewPlane svg s edge).1 =
        (if s.2 then
          s.1 ++ [getPointSVG (getProjectionToSVGPlane edge.v0 viewPlane)
            (factor * diameter)]
        else s.1) := by
  refine ⟨fun svg svg' => ?_, fun svg => ⟨?_, ?_⟩⟩ <;>
    simp [uShapeFaceOnStep, hline, hpx, hpy]

/-- Witness for C10 at the concrete degenerate edge: with no earlier
visible edge, nothing is appended and the visibility stays false. -/
theorem uShape_degenerate_point_rules_witness :
    (uShapeFaceOnStep 2 8 16 topViewPlane emptySvg ([], false)
      degenerateLineEdge).2 = false :=
  ((uShape_degenerate_point_rules 2 8 16 topViewPlane degenerateLineEdge
    ([], false) (by decide) (by decide) (by decide)).2 emptySvg).1

/-- Counterexample to C5: in the face-on stirrup builder a degenerate
straight edge (projections (0,0) and (1/4,0) round to the same integer
point) is emitted as a zero-length line path `M0 0 L0 0`, not as a point
marker — the emitted fragment contains no `circle` element at all. -/
theorem stirrup_degenerate_emits_line_not_point :
    (getStirrupSVGData stirrupC5 topViewPlane emptySvg).visibility = true ∧
    (getStirrupSVGData stirrupC5 topViewPlane emptySvg).svg.children =
      [getLineSVG ⟨0, 0, 0⟩ ⟨mkQ 1 4, 0, 0⟩] ∧
    (getLineSVG ⟨0, 0, 0⟩ ⟨mkQ 1 4, 0, 0⟩).getAttr "d" = some "M0 0 L0 0" ∧
    (getLineSVG ⟨0, 0, 0⟩ ⟨mkQ 1 4, 0, 0⟩).tag = "path" ∧
    XML.findDesc (fun x => x.tag == "circle")
      (getStirrupSVGData stirrupC5 topViewPlane emptySvg).svg = false := by
  decide

/-- Claim C5 (amended): a straight edge whose projected endpoints round to
the same integer coordinate is emitted as a point marker of radius
`SVG_POINT_DIA_FACTOR × diameter` in the face-on branches of the
U/bent/L-shape builder and of the straight-rebar builder; the face-on
stirrup builder has no degenerate case and emits the (possibly zero-length)
line segment instead. -/
theorem degenerate_point_marker_rules (factor radius diameter : Q)
    (rebar : Rebar) (viewPlane : ViewPlane) (edge : Edge) (svg : XML)
    (s : List XML × Bool) (hx hy vx vy : Q)
    (hline : edge.geomType = GeomType.line)
    (hpx : pyround (getProjectionToSVGPlane edge.v0 viewPlane).x =
      pyround (getProjectionToSVGPlane edge.v1 viewPlane).x)
    (hpy : pyround (getProjectionToSVGPlane edge.v0 viewPlane).y =
      pyround (getProjectionToSVGPlane edge.v1 viewPlane).y)
    (hface : crossLengthRoundsToZero viewPlane.axis rebar.spanAxis = true)
    (hbx : pyround (getProjectionToSVGPlane rebar.baseV0 viewPlane).x =
      pyround (getProjectionToSVGPlane rebar.baseV1 viewPlane).x)
    (hby : pyround (getProjectionToSVGPlane rebar.baseV0 viewPlane).y =
      pyround (getProjectionToSVGPlane rebar.baseV1 viewPlane).y) :
    (uShapeFaceOnStep factor diameter radius viewPlane svg s edge).1 =
      (if s.2 then
        s.1 ++ [getPointSVG (getProjectionToSVGPlane edge.v0 viewPlane)
          (factor * diameter)]
      else s.1) ∧
    (stirrupFaceOnStep radius viewPlane svg s edge).1 =
      (if s.2 || !(isLineInSVG (getProjectionToSVGPlane edge.v0 viewPlane)
          (getProjectionToSVGPlane edge.v1 viewPlane) svg) then
        s.1 ++ [getLineSVG (getProjectionToSVGPlane edge.v0 viewPlane)
          (getProjectionToSVGPlane edge.v1 viewPlane)]
      else s.1) ∧
    (getStraightRebarSVGData factor rebar viewPlane hx hy vx vy
        svg).svg.children.head? =
      (if (getStraightRebarSVGData factor rebar viewPlane hx hy vx vy
          svg).visibility then
        some (getPointSVG (getProjectionToSVGPlane rebar.baseV0 viewPlane)
          (factor * rebar.diameter))
      else none) := by
  refine ⟨?_, ?_, ?_⟩
  · simp [uShapeFaceOnStep, hline, hpx, hpy]
  · simp only [stirrupFaceOnStep, hline]
    split <;> rfl
  · by_cases hp : isPointInSVG (getProjectionToSVGPlane rebar.baseV0 viewPlane)
        svg
    · simp [getStraightRebarSVGData, getRebarsSpanAxis, hface, hbx, hby, hp,
        XML.children]
    · by_cases hd : (getLineDimensionsData
          (getProjectionToSVGPlane rebar.baseV0 viewPlane)
          (getProjectionToSVGPlane rebar.baseV1 viewPlane)
          (straightDimensionText rebar) hx hy vx
          vy).dimension_line_horizontal <;>
        simp [getStraightRebarSVGData, getRebarsSpanAxis, hface, hbx, hby, hp,
          hd, XML.children]

/-- Witness for C5 (amended) at concrete degenerate inputs. -/
theorem degenerate_point_marker_rules_witness :
    (getStraightRebarSVGData 2 straightDegen topViewPlane 50 50 50 (-50)
        emptySvg).svg.children.head? =
      (if (getStraightRebarSVGData 2 straightDegen topViewPlane 50 50 50 (-50)
          emptySvg).visibility then
        some (getPointSVG (getProjectionToSVGPlane straightDegen.baseV0
          topViewPlane) (2 * straightDegen.diameter))
      else none) :=
  (degenerate_point_marker_rules 2 16 8 straightDegen topViewPlane
    degenerateLineEdge emptySvg ([], false) 50 50 50 (-50) (by decide)
    (by decide) (by decide) (by decide) (by decide) (by decide)).2.2

/-- Counterexample to C4: in the face-on U-shape builder, a `Circle` edge
whose projected endpoints (0,0) and (10,0) share the rounded y coordinate
is emitted as a straight line path `M0 0 L10 0`, not as a circular arc of
the form `M x1 y1 A r r 0 0 s x2 y2`. -/
theorem uShape_aligned_circle_emits_line :
    (getUShapeRebarSVGData 2 uRebarC4 topViewPlane emptySvg).visibility =
      true ∧
    (getUShapeRebarSVGData 2 uRebarC4 topViewPlane emptySvg).svg.children =
      [getLineSVG ⟨0, 0, 0⟩ ⟨10, 0, 0⟩] ∧
    (getLineSVG ⟨0, 0, 0⟩ ⟨10, 0, 0⟩).getAttr "d" = some "M0 0 L10 0" ∧
    (getRoundCornerSVG alignedCircleEdge 16 topViewPlane).getAttr "d" =
      some "M0 0 A16 16 0 0 0 10 0" ∧
    findPathD "M0 0 A16 16 0 0 0 10 0"
      (getUShapeRebarSVGData 2 uRebarC4 topViewPlane emptySvg).svg = false := by
  decide

/-- Claim C4 (amended): whenever a face-on builder emits an element for a
`Circle` edge, the element is the arc path `M x1 y1 A r r 0 0 s x2 y2`
whose sweep flag is 1 exactly when the rotation angle from the edge's start
tangent to the tangent sampled slightly along the edge, measured against
the view-plane axis, is negative (equivalently
`axis · (t1 × t2) < 0`), and 0 otherwise — except that the U/bent/L-shape
builder emits a line segment instead when the projected endpoints share a
rounded x or y coordinate. -/
theorem circle_edge_arc_emission (factor diameter radius : Q)
    (viewPlane : ViewPlane) (svg : XML) (s : List XML × Bool) (edge : Edge)
    (hc : edge.geomType = GeomType.circle) :
    ((stirrupFaceOnStep radius viewPlane svg s edge).1 = s.1 ∨
     (stirrupFaceOnStep radius viewPlane svg s edge).1 =
       s.1 ++ [getRoundCornerSVG edge radius viewPlane]) ∧
    (getRoundCornerSVG edge radius viewPlane = XML.elem "path"
      [("style", "stroke:#000000;fill:none"),
       ("d", arcD (pyround (getProjectionToSVGPlane edge.v0 viewPlane).x)
          (pyround (getProjectionToSVGPlane edge.v0 viewPlane).y)
          (pyround radius) (toString (sweepFlag edge viewPlane))
          (pyround (getProjectionToSVGPlane edge.v1 viewPlane).x)
          (pyround (getProjectionToSVGPlane edge.v1 viewPlane).y))] []) ∧
    (sweepFlag edge viewPlane = 1 ↔
      Vec3.dot viewPlane.axis
        (Vec3.cross edge.tangentStart edge.tangentNear) < 0) ∧
    (sweepFlag edge viewPlane = 0 ↔
      ¬ Vec3.dot viewPlane.axis
        (Vec3.cross edge.tangentStart edge.tangentNear) < 0) ∧
    ((pyround (getProjectionToSVGPlane edge.v0 viewPlane).x =
        pyround (getProjectionToSVGPlane edge.v1 viewPlane).x ∨
      pyround (getProjectionToSVGPlane edge.v0 viewPlane).y =
        pyround (getProjectionToSVGPlane edge.v1 viewPlane).y) →
      ((uShapeFaceOnStep factor diameter radius viewPlane svg s edge).1 =
          s.1 ∨
       (uShapeFaceOnStep factor diameter radius viewPlane svg s edge).1 =
        s.1 ++ [getLineSVG (getProjectionToSVGPlane edge.v0 viewPlane)
          (getProjectionToSVGPlane edge.v1 viewPlane)])) ∧
    ((pyround (getProjectionToSVGPlane edge.v0 viewPlane).x ≠
        pyround (getProjectionToSVGPlane edge.v1 viewPlane).x ∧
      pyround (getProjectionToSVGPlane edge.v0 viewPlane).y ≠
        pyround (getProjectionToSVGPlane edge.v1 viewPlane).y) →
      ((uShapeFaceOnStep factor diameter radius viewPlane svg s edge).1 =
          s.1 ∨
       (uShapeFaceOnStep factor diameter radius viewPlane svg s edge).1 =
        s.1 ++ [getRoundCornerSVG edge radius viewPlane])) := by
  refine ⟨?_, ?_, ?_, ?_, ?_, ?_⟩
  · simp only [stirrupFaceOnStep, hc]
    by_cases h : (s.2 || !(isRoundCornerInSVG edge radius viewPlane svg)) <;>
      simp [h]
  · rfl
  · by_cases h : Vec3.dot viewPlane.axis
        (Vec3.cross edge.tangentStart edge.tangentNear) < 0 <;>
      simp [sweepFlag, angleIsNegative, h]
  · by_cases h : Vec3.dot viewPlane.axis
        (Vec3.cross edge.tangentStart edge.tangentNear) < 0 <;>
      simp [sweepFlag, angleIsNegative, h]
  · intro haligned
    have hb : (pyround (getProjectionToSVGPlane edge.v0 viewPlane).x ==
        pyround (getProjectionToSVGPlane edge.v1 viewPlane).x ||
      pyround (getProjectionToSVGPlane edge.v0 viewPlane).y ==
        pyround (getProjectionToSVGPlane edge.v1 viewPlane).y) = true := by
      rcases haligned with h | h <;> simp [h]
    simp only [uShapeFaceOnStep, hc, hb]
    by_cases h : (s.2 || !(isLineInSVG (getProjectionToSVGPlane edge.v0
        viewPlane) (getProjectionToSVGPlane edge.v1 viewPlane) svg)) <;>
      simp [h]
  · intro hnal
    have hb : (pyround (getProjectionToSVGPlane edge.v0 viewPlane).x ==
        pyround (getProjectionToSVGPlane edge.v1 viewPlane).x ||
      pyround (getProjectionToSVGPlane edge.v0 viewPlane).y ==
        pyround (getProjectionToSVGPlane edge.v1 viewPlane).y) = false := by
      simp [hnal.1, hnal.2]
    simp only [uShapeFaceOnStep, hc, hb]
    by_cases h : (s.2 || !(isRoundCornerInSVG edge radius viewPlane svg)) <;>
      simp [h]

/-- Witness for C4 (amended): the concrete stirrup corner arc is emitted as
the documented arc path with sweep flag 0. -/
theorem circle_edge_arc_emission_witness :
    (stirrupFaceOnStep 3 topViewPlane emptySvg ([], false) arcEdgeFwd).1 =
        [] ∨
    (stirrupFaceOnStep 3 topViewPlane emptySvg ([], false) arcEdgeFwd).1 =
      [] ++ [getRoundCornerSVG arcEdgeFwd 3 topViewPlane] :=
  (circle_edge_arc_emission 2 8 3 topViewPlane emptySvg ([], false)
    arcEdgeFwd (by decide)).1

/-- Counterexample to C2: processing the face-on stirrup `stirrupC2` (edge
1 already present in the accumulated svg, edge 2 novel) returns visibility
true, but the returned fragment contains only edge 2's element — edge 1,
skipped before any edge of the rebar was visible, does not appear. -/
theorem stirrup_dup_first_edge_absent :
    (getStirrupSVGData stirrupC2 topViewPlane svgWithEdgeA).visibility =
      true ∧
    (getStirrupSVGData stirrupC2 topViewPlane svgWithEdgeA).svg.children =
      [getLineSVG ⟨10, 0, 0⟩ ⟨10, 5, 0⟩] ∧
    findPathD (lineD ⟨0, 0, 0⟩ ⟨10, 0, 0⟩)
      (getStirrupSVGData stirrupC2 topViewPlane svgWithEdgeA).svg = false := by
  decide

/-- Claim C2 (amended): for a face-on rebar whose sorted edge list is
`[e1, e2]`, both straight lines with non-degenerate projections, edge 1 a
duplicate of geometry already in the accumulated svg and edge 2 novel, both
the stirrup builder and the U/bent/L-shape builder return visibility = true
and a fragment containing exactly edge 2's line element; edge 1, suppressed
before any edge of the rebar was visible, is not in the fragment. -/
theorem first_visible_edge_fragment (rebar : Rebar) (viewPlane : ViewPlane)
    (svg : XML) (e1 e2 : Edge) (factor : Q)
    (hedges : rebar.edges = [e1, e2])
    (hface : crossLengthRoundsToZero viewPlane.axis rebar.spanAxis = true)
    (hg1 : e1.geomType = GeomType.line)
    (hg2 : e2.geomType = GeomType.line)
    (hnd1 : ¬(pyround (getProjectionToSVGPlane e1.v0 viewPlane).x =
        pyround (getProjectionToSVGPlane e1.v1 viewPlane).x ∧
      pyround (getProjectionToSVGPlane e1.v0 viewPlane).y =
        pyround (getProjectionToSVGPlane e1.v1 viewPlane).y))
    (hnd2 : ¬(pyround (getProjectionToSVGPlane e2.v0 viewPlane).x =
        pyround (getProjectionToSVGPlane e2.v1 viewPlane).x ∧
      pyround (getProjectionToSVGPlane e2.v0 viewPlane).y =
        pyround (getProjectionToSVGPlane e2.v1 viewPlane).y))
    (hdup : isLineInSVG (getProjectionToSVGPlane e1.v0 viewPlane)
      (getProjectionToSVGPlane e1.v1 viewPlane) svg = true)
    (hnov : isLineInSVG (getProjectionToSVGPlane e2.v0 viewPlane)
      (getProjectionToSVGPlane e2.v1 viewPlane) svg = false) :
    (getStirrupSVGData rebar viewPlane svg).visibility = true ∧
    (getStirrupSVGData rebar viewPlane svg).svg =
      XML.elem "g" [("id", rebar.name)]
        [getLineSVG (getProjectionToSVGPlane e2.v0 viewPlane)
          (getProjectionToSVGPlane e2.v1 viewPlane)] ∧
    (getUShapeRebarSVGData factor rebar viewPlane svg).visibility = true ∧
    (getUShapeRebarSVGData factor rebar viewPlane svg).svg =
      XML.elem "g" [("id", rebar.name)]
        [getLineSVG (getProjectionToSVGPlane e2.v0 viewPlane)
          (getProjectionToSVGPlane e2.v1 viewPlane)] := by
  have hb1 : (pyround (getProjectionToSVGPlane e1.v0 viewPlane).x ==
      pyround (getProjectionToSVGPlane e1.v1 viewPlane).x &&
    pyround (getProjectionToSVGPlane e1.v0 viewPlane).y ==
      pyround (getProjectionToSVGPlane e1.v1 viewPlane).y) = false := by
    rcases not_and_or.mp hnd1 with h | h <;> simp [h]
  have hb2 : (pyround (getProjectionToSVGPlane e2.v0 viewPlane).x ==
      pyround (getProjectionToSVGPlane e2.v1 viewPlane).x &&
    pyround (getProjectionToSVGPlane e2.v0 viewPlane).y ==
      pyround (getProjectionToSVGPlane e2.v1 viewPlane).y) = false := by
    rcases not_and_or.mp hnd2 with h | h <;> simp [h]
  have hs1 : stirrupFaceOnStep (rebar.rounding * rebar.diameter) viewPlane svg
      ([], false) e1 = ([], false) := by
    simp [stirrupFaceOnStep, hg1, hdup]
  have hs2 : stirrupFaceOnStep (rebar.rounding * rebar.diameter) viewPlane svg
      ([], false) e2 =
      ([getLineSVG (getProjectionToSVGPlane e2.v0 viewPlane)
        (getProjectionToSVGPlane e2.v1 viewPlane)], true) := by
    simp [stirrupFaceOnStep, hg2, hnov]
  have hu1 : uShapeFaceOnStep factor rebar.diameter
      (rebar.rounding * rebar.diameter) viewPlane svg ([], false) e1 =
      ([], false) := by
    simp [uShapeFaceOnStep, hg1, hb1, hdup]
  have hu2 : uShapeFaceOnStep factor rebar.diameter
      (rebar.rounding * rebar.diameter) viewPlane svg ([], false) e2 =
      ([getLineSVG (getProjectionToSVGPlane e2.v0 viewPlane)
        (getProjectionToSVGPlane e2.v1 viewPlane)], true) := by
    simp [uShapeFaceOnStep, hg2, hb2, hnov]
  refine ⟨?_, ?_, ?_, ?_⟩ <;>
    simp [getStirrupSVGData, getUShapeRebarSVGData, getRebarsSpanAxis, hface,
      hedges, hs1, hs2, hu1, hu2]

/-- Witness for C2 (amended) at the concrete stirrup: visibility is
triggered by the novel second edge. -/
theorem first_visible_edge_fragment_witness :
    (getStirrupSVGData stirrupC2 topViewPlane svgWithEdgeA).svg =
      XML.elem "g" [("id", stirrupC2.name)]
        [getLineSVG (getProjectionToSVGPlane lineEdgeB.v0 topViewPlane)
          (getProjectionToSVGPlane lineEdgeB.v1 topViewPlane)] :=
  (first_visible_edge_fragment stirrupC2 topViewPlane svgWithEdgeA lineEdgeA
    lineEdgeB 2 (by decide) (by decide) (by decide) (by decide) (by decide)
    (by decide) (by decide) (by decide)).2.1

theorem findDesc_mkRebarsSvg_of_fragment {p : XML → Bool} {cs : List XML}
    {frag elemX : XML} (done : List XML) (catId : String)
    (hfrag : frag ∈ cs) (helem : elemX ∈ frag.children) (hp : p elemX = true) :
    XML.findDesc p (mkRebarsSvg done catId cs) = true := by
  have hfd : XML.findDesc p frag = true := by
    cases frag with
    | elem t a cc =>
        rw [findDesc_elem]
        exact findDescList_of_mem (by simpa [XML.children] using helem)
          (by simp [hp])
  have hgl : findDescList p cs = true :=
    findDescList_of_mem hfrag (by simp [hfd])
  rw [mkRebarsSvg, findDesc_elem, findDescList_append]
  simp [findDescList_cons, findDesc_elem, hgl]

theorem isLineInSVG_mkRebarsSvg_of_fragment {cs : List XML} {frag : XML}
    (done : List XML) (catId : String) (p1 p2 : Vec3)
    (hfrag : frag ∈ cs) (hline : getLineSVG p1 p2 ∈ frag.children) :
    isLineInSVG p1 p2 (mkRebarsSvg done catId cs) = true := by
  simp only [isLineInSVG, Bool.or_eq_true]
  refine Or.inl (findDesc_mkRebarsSvg_of_fragment done catId hfrag hline ?_)
  simp [isPathWithD, getLineSVG, XML.tag, XML.getAttr, XML.attrs, List.lookup]

theorem isPointInSVG_mkRebarsSvg_of_fragment {cs : List XML} {frag : XML}
    (done : List XML) (catId : String) (pt : Vec3) (radius : Q)
    (hfrag : frag ∈ cs) (hpt : getPointSVG pt radius ∈ frag.children) :
    isPointInSVG pt (mkRebarsSvg done catId cs) = true := by
  simp only [isPointInSVG, findCircle]
  refine findDesc_mkRebarsSvg_of_fragment done catId hfrag hpt ?_
  simp [isCircleAt, getPointSVG, XML.tag, XML.getAttr, XML.attrs, List.lookup]

theorem getStraightRebarSVGData_faceon_line (factor : Q) (r : Rebar)
    (vp : ViewPlane) (hx hy vx vy : Q) (svg : XML)
    (hface : crossLengthRoundsToZero vp.axis r.spanAxis = true)
    (hnd : ¬(pyround (getProjectionToSVGPlane r.baseV0 vp).x =
        pyround (getProjectionToSVGPlane r.baseV1 vp).x ∧
      pyround (getProjectionToSVGPlane r.baseV0 vp).y =
        pyround (getProjectionToSVGPlane r.baseV1 vp).y)) :
    (getStraightRebarSVGData factor r vp hx hy vx vy svg).visibility =
      !(isLineInSVG (getProjectionToSVGPlane r.baseV0 vp)
        (getProjectionToSVGPlane r.baseV1 vp) svg) ∧
    ((getStraightRebarSVGData factor r vp hx hy vx vy svg).visibility =
        true →
      (getStraightRebarSVGData factor r vp hx hy vx vy svg).svg =
        XML.elem "g" [("id", r.name)]
          [getLineSVG (getProjectionToSVGPlane r.baseV0 vp)
            (getProjectionToSVGPlane r.baseV1 vp),
           (getLineDimensionsData (getProjectionToSVGPlane r.baseV0 vp)
             (getProjectionToSVGPlane r.baseV1 vp)
             (straightDimensionText r) hx hy vx vy).svg]) := by
  have hb : (pyround (getProjectionToSVGPlane r.baseV0 vp).x ==
      pyround (getProjectionToSVGPlane r.baseV1 vp).x &&
    pyround (getProjectionToSVGPlane r.baseV0 vp).y ==
      pyround (getProjectionToSVGPlane r.baseV1 vp).y) = false := by
    rcases not_and_or.mp hnd with h | h <;> simp [h]
  cases h : isLineInSVG (getProjectionToSVGPlane r.baseV0 vp)
      (getProjectionToSVGPlane r.baseV1 vp) svg with
  | true =>
      constructor <;>
        simp [getStraightRebarSVGData, getRebarsSpanAxis, hface, hb, h]
  | false =>
      by_cases hd : (getLineDimensionsData
          (getProjectionToSVGPlane r.baseV0 vp)
          (getProjectionToSVGPlane r.baseV1 vp)
          (straightDimensionText r) hx hy vx
          vy).dimension_line_horizontal <;>
        constructor <;>
        simp [getStraightRebarSVGData, getRebarsSpanAxis, hface, hb, h, hd]

theorem getStraightRebarSVGData_faceon_point (factor : Q) (r : Rebar)
    (vp : ViewPlane) (hx hy vx vy : Q) (svg : XML)
    (hface : crossLengthRoundsToZero vp.axis r.spanAxis = true)
    (hdeg : pyround (getProjectionToSVGPlane r.baseV0 vp).x =
        pyround (getProjectionToSVGPlane r.baseV1 vp).x ∧
      pyround (getProjectionToSVGPlane r.baseV0 vp).y =
        pyround (getProjectionToSVGPlane r.baseV1 vp).y) :
    (getStraightRebarSVGData factor r vp hx hy vx vy svg).visibility =
      !(isPointInSVG (getProjectionToSVGPlane r.baseV0 vp) svg) ∧
    ((getStraightRebarSVGData factor r vp hx hy vx vy svg).visibility =
        true →
      (getStraightRebarSVGData factor r vp hx hy vx vy svg).svg =
        XML.elem "g" [("id", r.name)]
          [getPointSVG (getProjectionToSVGPlane r.baseV0 vp)
            (factor * r.diameter),
           (getLineDimensionsData (getProjectionToSVGPlane r.baseV0 vp)
             (getProjectionToSVGPlane r.baseV1 vp)
             (straightDimensionText r) hx hy vx vy).svg]) := by
  cases h : isPointInSVG (getProjectionToSVGPlane r.baseV0 vp) svg with
  | true =>
      constructor <;>
        simp [getStraightRebarSVGData, getRebarsSpanAxis, hface, hdeg.1,
          hdeg.2, h]
  | false =>
      by_cases hd : (getLineDimensionsData
          (getProjectionToSVGPlane r.baseV0 vp)
          (getProjectionToSVGPlane r.baseV1 vp)
          (straightDimensionText r) hx hy vx
          vy).dimension_line_horizontal <;>
        constructor <;>
        simp [getStraightRebarSVGData, getRebarsSpanAxis, hface, hdeg.1,
          hdeg.2, h, hd]

/-- Claim C3: two geometrically identical face-on straight rebars processed
in sequence by the assembler's straight-rebar loop.  The first, whose
geometry is not yet in the accumulated svg, returns visibility = true and
its fragment is appended to the `StraightRebar` group; the second then
finds the first's geometry in the accumulated svg, returns visibility =
false, and nothing of it is appended. -/
theorem straight_rebar_sequential_dedup (inp : DrawingInput)
    (s : List XML × Q × Q) (r1 r2 : Rebar)
    (hface1 : crossLengthRoundsToZero inp.viewPlane.axis r1.spanAxis = true)
    (hface2 : crossLengthRoundsToZero inp.viewPlane.axis r2.spanAxis = true)
    (hp1 : getProjectionToSVGPlane r2.baseV0 inp.viewPlane =
      getProjectionToSVGPlane r1.baseV0 inp.viewPlane)
    (hp2 : getProjectionToSVGPlane r2.baseV1 inp.viewPlane =
      getProjectionToSVGPlane r1.baseV1 inp.viewPlane)
    (hvis1 : (getStraightRebarSVGData inp.svgPointDiaFactor r1 inp.viewPlane
      (hDimXInit inp) s.2.1 s.2.2 (vDimYInit inp)
      (mkRebarsSvg (done4 inp) "StraightRebar" s.1)).visibility = true) :
    (straightStep inp s r1).1 =
      s.1 ++ [(getStraightRebarSVGData inp.svgPointDiaFactor r1 inp.viewPlane
        (hDimXInit inp) s.2.1 s.2.2 (vDimYInit inp)
        (mkRebarsSvg (done4 inp) "StraightRebar" s.1)).svg] ∧
    (getStraightRebarSVGData inp.svgPointDiaFactor r2 inp.viewPlane
      (hDimXInit inp) (straightStep inp s r1).2.1
      (straightStep inp s r1).2.2 (vDimYInit inp)
      (mkRebarsSvg (done4 inp) "StraightRebar"
        (straightStep inp s r1).1)).visibility = false ∧
    (straightStep inp (straightStep inp s r1) r2).1 =
      (straightStep inp s r1).1 := by
  have hs1 : (straightStep inp s r1).1 =
      s.1 ++ [(getStraightRebarSVGData inp.svgPointDiaFactor r1 inp.viewPlane
        (hDimXInit inp) s.2.1 s.2.2 (vDimYInit inp)
        (mkRebarsSvg (done4 inp) "StraightRebar" s.1)).svg] := by
    simp [straightStep, hvis1]
  have hvis2 : (getStraightRebarSVGData inp.svgPointDiaFactor r2 inp.viewPlane
      (hDimXInit inp) (straightStep inp s r1).2.1
      (straightStep inp s r1).2.2 (vDimYInit inp)
      (mkRebarsSvg (done4 inp) "StraightRebar"
        (straightStep inp s r1).1)).visibility = false := by
    by_cases hdeg : (pyround (getProjectionToSVGPlane r1.baseV0
          inp.viewPlane).x =
        pyround (getProjectionToSVGPlane r1.baseV1 inp.viewPlane).x ∧
      pyround (getProjectionToSVGPlane r1.baseV0 inp.viewPlane).y =
        pyround (getProjectionToSVGPlane r1.baseV1 inp.viewPlane).y)
    · obtain ⟨_, hsvg1⟩ := getStraightRebarSVGData_faceon_point
        inp.svgPointDiaFactor r1 inp.viewPlane (hDimXInit inp) s.2.1 s.2.2
        (vDimYInit inp) (mkRebarsSvg (done4 inp) "StraightRebar" s.1) hface1
        hdeg
      have hmem : getPointSVG (getProjectionToSVGPlane r1.baseV0 inp.viewPlane)
          (inp.svgPointDiaFactor * r1.diameter) ∈
          (getStraightRebarSVGData inp.svgPointDiaFactor r1 inp.viewPlane
            (hDimXInit inp) s.2.1 s.2.2 (vDimYInit inp)
            (mkRebarsSvg (done4 inp) "StraightRebar" s.1)).svg.children := by
        rw [hsvg1 hvis1]
        simp [XML.children]
      have hdeg2 : pyround (getProjectionToSVGPlane r2.baseV0
            inp.viewPlane).x =
          pyround (getProjectionToSVGPlane r2.baseV1 inp.viewPlane).x ∧
        pyround (getProjectionToSVGPlane r2.baseV0 inp.viewPlane).y =
          pyround (getProjectionToSVGPlane r2.baseV1 inp.viewPlane).y := by
        rw [hp1, hp2]
        exact hdeg
      obtain ⟨hv2, _⟩ := getStraightRebarSVGData_faceon_point
        inp.svgPointDiaFactor r2 inp.viewPlane (hDimXInit inp)
        (straightStep inp s r1).2.1 (straightStep inp s r1).2.2
        (vDimYInit inp)
        (mkRebarsSvg (done4 inp) "StraightRebar" (straightStep inp s r1).1)
        hface2 hdeg2
      have hin : isPointInSVG (getProjectionToSVGPlane r2.baseV0 inp.viewPlane)
          (mkRebarsSvg (done4 inp) "StraightRebar"
            (straightStep inp s r1).1) = true := by
        rw [hp1, hs1]
        exact isPointInSVG_mkRebarsSvg_of_fragment (done4 inp) "StraightRebar"
          (getProjectionToSVGPlane r1.baseV0 inp.viewPlane)
          (inp.svgPointDiaFactor * r1.diameter)
          (List.mem_append_right _ (List.mem_singleton.mpr rfl)) hmem
      rw [hv2, hin]
      rfl
    · obtain ⟨_, hsvg1⟩ := getStraightRebarSVGData_faceon_line
        inp.svgPointDiaFactor r1 inp.viewPlane (hDimXInit inp) s.2.1 s.2.2
        (vDimYInit inp) (mkRebarsSvg (done4 inp) "StraightRebar" s.1) hface1
        hdeg
      have hmem : getLineSVG (getProjectionToSVGPlane r1.baseV0 inp.viewPlane)
          (getProjectionToSVGPlane r1.baseV1 inp.viewPlane) ∈
          (getStraightRebarSVGData inp.svgPointDiaFactor r1 inp.viewPlane
            (hDimXInit inp) s.2.1 s.2.2 (vDimYInit inp)
            (mkRebarsSvg (done4 inp) "StraightRebar" s.1)).svg.children := by
        rw [hsvg1 hvis1]
        simp [XML.children]
      have hdeg2 : ¬(pyround (getProjectionToSVGPlane r2.baseV0
            inp.viewPlane).x =
          pyround (getProjectionToSVGPlane r2.baseV1 inp.viewPlane).x ∧
        pyround (getProjectionToSVGPlane r2.baseV0 inp.viewPlane).y =
          pyround (getProjectionToSVGPlane r2.baseV1 inp.viewPlane).y) := by
        rw [hp1, hp2]
        exact hdeg
      obtain ⟨hv2, _⟩ := getStraightRebarSVGData_faceon_line
        inp.svgPointDiaFactor r2 inp.viewPlane (hDimXInit inp)
        (straightStep inp s r1).2.1 (straightStep inp s r1).2.2
        (vDimYInit inp)
        (mkRebarsSvg (done4 inp) "StraightRebar" (straightStep inp s r1).1)
        hface2 hdeg2
      have hin : isLineInSVG (getProjectionToSVGPlane r2.baseV0 inp.viewPlane)
          (getProjectionToSVGPlane r2.baseV1 inp.viewPlane)
          (mkRebarsSvg (done4 inp) "StraightRebar"
            (straightStep inp s r1).1) = true := by
        rw [hp1, hp2, hs1]
        exact isLineInSVG_mkRebarsSvg_of_fragment (done4 inp) "StraightRebar"
          (getProjectionToSVGPlane r1.baseV0 inp.viewPlane)
          (getProjectionToSVGPlane r1.baseV1 inp.viewPlane)
          (List.mem_append_right _ (List.mem_singleton.mpr rfl)) hmem
      rw [hv2, hin]
      rfl
  refine ⟨hs1, hvis2, ?_⟩
  conv_lhs => rw [straightStep]
  simp [hvis2]

/-- Witness for C3 at the concrete pair of identical straight rebars: the
second one is suppressed. -/
theorem straight_rebar_sequential_dedup_witness :
    (straightStep inpC3 (straightStep inpC3
        ([], hDimYInit inpC3, vDimXInit inpC3) straightR1) straightR2).1 =
      (straightStep inpC3 ([], hDimYInit inpC3, vDimXInit inpC3)
        straightR1).1 :=
  (straight_rebar_sequential_dedup inpC3
    ([], hDimYInit inpC3, vDimXInit inpC3) straightR1 straightR2 (by decide)
    (by decide) (by decide) (by decide) (by decide)).2.2

theorem dimLabelYOf_fragment (name : String) (pr : XML) (p1 p2 : Vec3)
    (text : String) (hx hy vx vy : Q)
    (hh : (getLineDimensionsData p1 p2 text hx hy vx
      vy).dimension_line_horizontal = true) :
    dimLabelYOf (XML.elem "g" [("id", name)]
      [pr, (getLineDimensionsData p1 p2 text hx hy vx vy).svg]) =
      some hy.str := by
  by_cases hc : (p2.y - p1.y).qabs < (p2.x - p1.x).qabs
  · exfalso
    simp [getLineDimensionsData, hc] at hh
  · simp [getLineDimensionsData, hc, dimLabelYOf, XML.children,
      getSVGTextElement, XML.getAttr, XML.attrs, List.lookup]

theorem straight_offsets_eq (factor : Q) (r : Rebar) (vp : ViewPlane)
    (hx hy vx vy : Q) (svg : XML) :
    ((getStraightRebarSVGData factor r vp hx hy vx vy svg).h_dim_y_offset,
     (getStraightRebarSVGData factor r vp hx hy vx vy svg).v_dim_x_offset) =
      (if crossLengthRoundsToZero vp.axis r.spanAxis &&
          (getStraightRebarSVGData factor r vp hx hy vx vy svg).visibility then
        (if (getLineDimensionsData (getProjectionToSVGPlane r.baseV0 vp)
            (getProjectionToSVGPlane r.baseV1 vp) (straightDimensionText r)
            hx hy vx vy).dimension_line_horizontal then (hy + 100, vx)
         else (hy, vx + 100))
      else (hy, vx)) := by
  by_cases hface : crossLengthRoundsToZero vp.axis r.spanAxis
  · by_cases hdeg : (pyround (getProjectionToSVGPlane r.baseV0 vp).x =
        pyround (getProjectionToSVGPlane r.baseV1 vp).x ∧
      pyround (getProjectionToSVGPlane r.baseV0 vp).y =
        pyround (getProjectionToSVGPlane r.baseV1 vp).y)
    · by_cases hp : isPointInSVG (getProjectionToSVGPlane r.baseV0 vp) svg
      · simp [getStraightRebarSVGData, getRebarsSpanAxis, hface, hdeg.1,
          hdeg.2, hp]
      · by_cases hd : (getLineDimensionsData
            (getProjectionToSVGPlane r.baseV0 vp)
            (getProjectionToSVGPlane r.baseV1 vp) (straightDimensionText r)
            hx hy vx vy).dimension_line_horizontal <;>
          simp [getStraightRebarSVGData, getRebarsSpanAxis, hface, hdeg.1,
            hdeg.2, hp, hd]
    · have hb : (pyround (getProjectionToSVGPlane r.baseV0 vp).x ==
          pyround (getProjectionToSVGPlane r.baseV1 vp).x &&
        pyround (getProjectionToSVGPlane r.baseV0 vp).y ==
          pyround (getProjectionToSVGPlane r.baseV1 vp).y) = false := by
        rcases not_and_or.mp hdeg with h | h <;> simp [h]
      by_cases hl : isLineInSVG (getProjectionToSVGPlane r.baseV0 vp)
          (getProjectionToSVGPlane r.baseV1 vp) svg
      · simp [getStraightRebarSVGData, getRebarsSpanAxis, hface, hb, hl]
      · by_cases hd : (getLineDimensionsData
            (getProjectionToSVGPlane r.baseV0 vp)
            (getProjectionToSVGPlane r.baseV1 vp) (straightDimensionText r)
            hx hy vx vy).dimension_line_horizontal <;>
          simp [getStraightRebarSVGData, getRebarsSpanAxis, hface, hb, hl, hd]
  · simp [getStraightRebarSVGData, getRebarsSpanAxis, hface]

/-- Claim C6: each placed dimension advances exactly its own orientation's
offset accumulator by 100 (`h_dim_y_offset` for a horizontal dimension,
`v_dim_x_offset` for a vertical one) and leaves the other unchanged; an
invisible rebar, or a rebar outside the face-on branch, changes neither.
Consequently two straight rebars processed in sequence that both receive
horizontal dimensions get labels at y-offsets differing by exactly 100. -/
theorem dimension_offsets_spec (inp : DrawingInput) (s : List XML × Q × Q)
    (r1 r2 : Rebar)
    (hface1 : crossLengthRoundsToZero inp.viewPlane.axis r1.spanAxis = true)
    (hface2 : crossLengthRoundsToZero inp.viewPlane.axis r2.spanAxis = true)
    (hvis1 : (getStraightRebarSVGData inp.svgPointDiaFactor r1 inp.viewPlane
      (hDimXInit inp) s.2.1 s.2.2 (vDimYInit inp)
      (mkRebarsSvg (done4 inp) "StraightRebar" s.1)).visibility = true)
    (hvis2 : (getStraightRebarSVGData inp.svgPointDiaFactor r2 inp.viewPlane
      (hDimXInit inp) (straightStep inp s r1).2.1
      (straightStep inp s r1).2.2 (vDimYInit inp)
      (mkRebarsSvg (done4 inp) "StraightRebar"
        (straightStep inp s r1).1)).visibility = true)
    (hh1 : (getLineDimensionsData
      (getProjectionToSVGPlane r1.baseV0 inp.viewPlane)
      (getProjectionToSVGPlane r1.baseV1 inp.viewPlane)
      (straightDimensionText r1) (hDimXInit inp) s.2.1 s.2.2
      (vDimYInit inp)).dimension_line_horizontal = true)
    (hh2 : (getLineDimensionsData
      (getProjectionToSVGPlane r2.baseV0 inp.viewPlane)
      (getProjectionToSVGPlane r2.baseV1 inp.viewPlane)
      (straightDimensionText r2) (hDimXInit inp) (straightStep inp s r1).2.1
      (straightStep inp s r1).2.2
      (vDimYInit inp)).dimension_line_horizontal = true) :
    (∀ (factor : Q) (r : Rebar) (vp : ViewPlane) (hx hy vx vy : Q)
      (svg : XML),
      ((getStraightRebarSVGData factor r vp hx hy vx vy svg).h_dim_y_offset,
       (getStraightRebarSVGData factor r vp hx hy vx vy svg).v_dim_x_offset) =
        (if crossLengthRoundsToZero vp.axis r.spanAxis &&
            (getStraightRebarSVGData factor r vp hx hy vx vy
              svg).visibility then
          (if (getLineDimensionsData (getProjectionToSVGPlane r.baseV0 vp)
              (getProjectionToSVGPlane r.baseV1 vp) (straightDimensionText r)
              hx hy vx vy).dimension_line_horizontal then (hy + 100, vx)
           else (hy, vx + 100))
        else (hy, vx))) ∧
    (straightStep inp s r1).2.1 = s.2.1 + 100 ∧
    (straightStep inp s r1).2.2 = s.2.2 ∧
    dimLabelYOf (getStraightRebarSVGData inp.svgPointDiaFactor r1
      inp.viewPlane (hDimXInit inp) s.2.1 s.2.2 (vDimYInit inp)
      (mkRebarsSvg (done4 inp) "StraightRebar" s.1)).svg =
      some (Q.str s.2.1) ∧
    dimLabelYOf (getStraightRebarSVGData inp.svgPointDiaFactor r2
      inp.viewPlane (hDimXInit inp) (straightStep inp s r1).2.1
      (straightStep inp s r1).2.2 (vDimYInit inp)
      (mkRebarsSvg (done4 inp) "StraightRebar"
        (straightStep inp s r1).1)).svg =
      some (Q.str (s.2.1 + 100)) := by
  have hoff1 := straight_offsets_eq inp.svgPointDiaFactor r1 inp.viewPlane
    (hDimXInit inp) s.2.1 s.2.2 (vDimYInit inp)
    (mkRebarsSvg (done4 inp) "StraightRebar" s.1)
  rw [hface1, hvis1, hh1] at hoff1
  simp only [Bool.and_self, if_true] at hoff1
  have h1h : (getStraightRebarSVGData inp.svgPointDiaFactor r1 inp.viewPlane
      (hDimXInit inp) s.2.1 s.2.2 (vDimYInit inp)
      (mkRebarsSvg (done4 inp) "StraightRebar" s.1)).h_dim_y_offset =
      s.2.1 + 100 := congrArg Prod.fst hoff1
  have h1v : (getStraightRebarSVGData inp.svgPointDiaFactor r1 inp.viewPlane
      (hDimXInit inp) s.2.1 s.2.2 (vDimYInit inp)
      (mkRebarsSvg (done4 inp) "StraightRebar" s.1)).v_dim_x_offset =
      s.2.2 := congrArg Prod.snd hoff1
  have hs1h : (straightStep inp s r1).2.1 = s.2.1 + 100 := by
    simp [straightStep, hvis1, h1h]
  have hs1v : (straightStep inp s r1).2.2 = s.2.2 := by
    simp [straightStep, hvis1, h1v]
  have hlab1 : dimLabelYOf (getStraightRebarSVGData inp.svgPointDiaFactor r1
      inp.viewPlane (hDimXInit inp) s.2.1 s.2.2 (vDimYInit inp)
      (mkRebarsSvg (done4 inp) "StraightRebar" s.1)).svg =
      some (Q.str s.2.1) := by
    by_cases hdeg : (pyround (getProjectionToSVGPlane r1.baseV0
          inp.viewPlane).x =
        pyround (getProjectionToSVGPlane r1.baseV1 inp.viewPlane).x ∧
      pyround (getProjectionToSVGPlane r1.baseV0 inp.viewPlane).y =
        pyround (getProjectionToSVGPlane r1.baseV1 inp.viewPlane).y)
    · obtain ⟨_, hsvg⟩ := getStraightRebarSVGData_faceon_point
        inp.svgPointDiaFactor r1 inp.viewPlane (hDimXInit inp) s.2.1 s.2.2
        (vDimYInit inp) (mkRebarsSvg (done4 inp) "StraightRebar" s.1) hface1
        hdeg
      rw [hsvg hvis1]
      exact dimLabelYOf_fragment _ _ _ _ _ _ _ _ _ hh1
    · obtain ⟨_, hsvg⟩ := getStraightRebarSVGData_faceon_line
        inp.svgPointDiaFactor r1 inp.viewPlane (hDimXInit inp) s.2.1 s.2.2
        (vDimYInit inp) (mkRebarsSvg (done4 inp) "StraightRebar" s.1) hface1
        hdeg
      rw [hsvg hvis1]
      exact dimLabelYOf_fragment _ _ _ _ _ _ _ _ _ hh1
  have hlab2 : dimLabelYOf (getStraightRebarSVGData inp.svgPointDiaFactor r2
      inp.viewPlane (hDimXInit inp) (straightStep inp s r1).2.1
      (straightStep inp s r1).2.2 (vDimYInit inp)
      (mkRebarsSvg (done4 inp) "StraightRebar"
        (straightStep inp s r1).1)).svg =
      some (Q.str (s.2.1 + 100)) := by
    by_cases hdeg : (pyround (getProjectionToSVGPlane r2.baseV0
          inp.viewPlane).x =
        pyround (getProjectionToSVGPlane r2.baseV1 inp.viewPlane).x ∧
      pyround (getProjectionToSVGPlane r2.baseV0 inp.viewPlane).y =
        pyround (getProjectionToSVGPlane r2.baseV1 inp.viewPlane).y)
    · obtain ⟨_, hsvg⟩ := getStraightRebarSVGData_faceon_point
        inp.svgPointDiaFactor r2 inp.viewPlane (hDimXInit inp)
        (straightStep inp s r1).2.1 (straightStep inp s r1).2.2
        (vDimYInit inp)
        (mkRebarsSvg (done4 inp) "StraightRebar" (straightStep inp s r1).1)
        hface2 hdeg
      rw [hsvg hvis2, ← hs1h]
      exact dimLabelYOf_fragment _ _ _ _ _ _ _ _ _ hh2
    · obtain ⟨_, hsvg⟩ := getStraightRebarSVGData_faceon_line
        inp.svgPointDiaFactor r2 inp.viewPlane (hDimXInit inp)
        (straightStep inp s r1).2.1 (straightStep inp s r1).2.2
        (vDimYInit inp)
        (mkRebarsSvg (done4 inp) "StraightRebar" (straightStep inp s r1).1)
        hface2 hdeg
      rw [hsvg hvis2, ← hs1h]
      exact dimLabelYOf_fragment _ _ _ _ _ _ _ _ _ hh2
  exact ⟨fun factor r vp hx hy vx vy svg =>
    straight_offsets_eq factor r vp hx hy vx vy svg, hs1h, hs1v, hlab1, hlab2⟩

/-- Witness for C6 at the two concrete vertical straight rebars: the second
horizontal dimension label sits exactly 100 units below the first. -/
theorem dimension_offsets_spec_witness :
    dimLabelYOf (getStraightRebarSVGData inpC6.svgPointDiaFactor vertR2
      inpC6.viewPlane (hDimXInit inpC6)
      (straightStep inpC6 ([], hDimYInit inpC6, vDimXInit inpC6) vertR1).2.1
      (straightStep inpC6 ([], hDimYInit inpC6, vDimXInit inpC6) vertR1).2.2
      (vDimYInit inpC6)
      (mkRebarsSvg (done4 inpC6) "StraightRebar"
        (straightStep inpC6 ([], hDimYInit inpC6, vDimXInit inpC6)
          vertR1).1)).svg =
      some (Q.str (hDimYInit inpC6 + 100)) :=
  (dimension_offsets_spec inpC6 ([], hDimYInit inpC6, vDimXInit inpC6) vertR1
    vertR2 (by decide) (by decide) (by decide) (by decide) (by decide)
    (by decide)).2.2.2.2
